import Mathlib

/-!
# TCP_lwIP: the bridge between the lwIP engine and the message-passing host

A shallow embedding of `src/inet/transportlayer/tcp_lwip/TCP_lwIP.cc`, followed
by one of `src/inet/linklayer/ieee80211/mac/aggregation/MsduDeaggregation.cc` and
one of `src/inet/common/serializer/ppp/PPPHeaderSerializer.cc`.

* The module object is the record `TCP_lwIP`; every member function is a
  function from the state before the call to a `Result` (normal return or a
  thrown fault, each with the state reached).
* Pointers to engine handles (`tcp_pcb *`) are addresses into the handle
  memory `pcbs`; `nullptr` is `none`.
* `std::map<int, TcpLwipConnection *>` is a key-ordered association list.
* Everything the module sends or asks of a collaborator (application
  notifications, calls of `TcpLwipConnection` members, calls into the lwIP
  layer) is appended to the chronological `trace`. A recorded call is not
  executed: what the engine does in response, callbacks included, is a
  transition of its own. Only `if_receive_packet` is also run, as a parameter,
  because the current-segment slot is set for the time of that call, and so
  are the two timer entry points and, in `handleMessage`, the connection
  operation a command ends in (`connectionOperation`), after which the
  engine's handle lists are read.
* Simulation time is a count of clock ticks in a signed 64-bit integer, as in
  OMNeT++: an addition whose sum does not fit (`simTimeAdd`) ends in an
  overflow error.
-/

namespace INET

/-! ## `std::map` -/

/-- Association list standing for a `std::map`, kept in key order by `assign`. -/
abbrev StdMap (κ α : Type) := List (κ × α)

namespace StdMap

variable {κ α : Type} [DecidableEq κ] [LT κ] [DecidableRel (fun (a b : κ) => a < b)]

/-- Lookup, `std::map::find`: `none` stands for `end()`. -/
def find (k : κ) : StdMap κ α → Option α
  | [] => none
  | (k', v) :: m => if k' = k then some v else find k m

/-- Assignment through `operator[]`: `m[k] = v` replaces the value of an existing
key and inserts a new entry otherwise. -/
def assign (k : κ) (v : α) : StdMap κ α → StdMap κ α
  | [] => [(k, v)]
  | (k', v') :: m =>
    if k' = k then (k, v) :: m
    else if k < k' then (k, v) :: (k', v') :: m
    else (k', v') :: assign k v m

/-- Removal by key, `std::map::erase(key)`. -/
def erase (k : κ) : StdMap κ α → StdMap κ α
  | [] => []
  | (k', v) :: m => if k' = k then erase k m else (k', v) :: erase k m

/-- Write through a pointer or reference to a stored value; no entry, no change. -/
def modify (k : κ) (f : α → α) : StdMap κ α → StdMap κ α
  | [] => []
  | (k', v) :: m => if k' = k then (k', f v) :: m else (k', v) :: modify k f m

end StdMap

/-! ## Data model -/

/-- Network address, `L3Address`; the default-constructed address is unspecified. -/
inductive L3Address where
  | unspecified
  | addr (a : Nat)
  deriving DecidableEq, Repr

/-- Test of `L3Address::isUnspecified`. -/
def L3Address.isUnspecified : L3Address → Bool
  | .unspecified => true
  | .addr _ => false

/-- Checksum mode of a header, `CrcMode`. -/
inductive CrcMode where
  | CRC_MODE_UNDEFINED
  | CRC_DISABLED
  | CRC_DECLARED_CORRECT
  | CRC_DECLARED_INCORRECT
  | CRC_COMPUTED
  deriving DecidableEq, Repr

/-- Fields of a `TcpHeader`. -/
structure TcpHeader where
  srcPort : Nat
  destPort : Nat
  sequenceNo : Nat
  ackNo : Nat
  headerLength : Nat
  urgBit : Bool
  ackBit : Bool
  pshBit : Bool
  rstBit : Bool
  synBit : Bool
  finBit : Bool
  window : Nat
  urgentPointer : Nat
  crc : Nat
  crcMode : CrcMode
  deriving DecidableEq, Repr

/-- Inbound `Packet`: a TCP header, the payload bytes, and the tags the network
layer attaches (`L3AddressInd`, `InterfaceInd`). -/
structure Packet where
  header : TcpHeader
  payload : List Nat
  srcAddress : L3Address
  destAddress : L3Address
  interfaceId : Int
  deriving DecidableEq, Repr

/-- Engine connection states, `LwipTcpLayer::tcp_state`. -/
inductive tcp_state where
  | CLOSED | LISTEN | SYN_SENT | SYN_RCVD | ESTABLISHED | FIN_WAIT_1
  | FIN_WAIT_2 | CLOSE_WAIT | CLOSING | LAST_ACK | TIME_WAIT
  deriving DecidableEq, Repr

/-- Engine handle, `LwipTcpLayer::tcp_pcb`. The back-reference `callback_arg`
points to the owning `TcpLwipConnection`, which is named here by its `connIdM`. -/
structure tcp_pcb where
  state : tcp_state
  local_ip : L3Address
  local_port : Nat
  remote_ip : L3Address
  remote_port : Nat
  callback_arg : Option Int
  deriving DecidableEq, Repr

/-- Modelled from the spec: `TcpLwipConnection` (its class is not in src). A
Connection has an identifier, an engine handle (`none` is `nullptr`) and a
transfer mode fixed at creation. -/
structure TcpLwipConnection where
  connIdM : Int
  pcbM : Option Nat
  dataTransferModeM : Int
  deriving DecidableEq, Repr

/-- Status indications sent to the application, `TcpStatusInd`. -/
inductive TcpStatusInd where
  | TCP_I_DATA | TCP_I_URGENT_DATA | TCP_I_AVAILABLE | TCP_I_ESTABLISHED
  | TCP_I_PEER_CLOSED | TCP_I_CLOSED | TCP_I_CONNECTION_REFUSED
  | TCP_I_CONNECTION_RESET | TCP_I_TIMED_OUT | TCP_I_STATUS
  deriving DecidableEq, Repr

/-- Synthetic network-layer frame handed to the engine: the fields written into
the lwIP `ip_hdr` at the start of the buffer, and the segment bytes after it. -/
structure IpBuffer where
  _hl : Nat
  _chksum : Nat
  src : L3Address
  dest : L3Address
  tcp : List Nat
  deriving DecidableEq, Repr

/-- Protocols a message can be tagged with, `Protocol`. -/
inductive Protocol where
  | tcp | icmpv4 | icmpv6 | ipv4 | ipv6 | other
  deriving DecidableEq, Repr

/-- Outbound `Packet` as it is sent on `ipOut`: the TCP header, the data after
it, and the tags `PacketProtocolTag`, `TransportProtocolInd`,
`DispatchProtocolReq` and `L3AddressReq`. -/
structure OutboundPacket where
  header : TcpHeader
  payload : List Nat
  packetProtocol : Protocol
  transportProtocol : Protocol
  dispatchProtocol : Protocol
  srcAddress : L3Address
  destAddress : L3Address
  deriving DecidableEq, Repr

/-- One observable action of the module, in the order it happens. -/
inductive Effect where
  /-- Status notification to the application, `TcpLwipConnection::sendIndicationToApp`. -/
  | indication (connId : Int) (ind : TcpStatusInd)
  /-- AVAILABLE notification addressed to socket `listenConnId`, carrying `newConnId`. -/
  | available (listenConnId : Int) (newConnId : Int)
  /-- ESTABLISHED notification, `TcpLwipConnection::sendEstablishedMsg`. -/
  | established (connId : Int)
  /-- Delivery of buffered data upward, `TcpLwipConnection::sendUpData`. -/
  | sendUpData (connId : Int)
  /-- Flush of the send queue, `TcpLwipConnection::do_SEND`. -/
  | do_SEND (connId : Int)
  /-- Receive-queue append, `receiveQueueM->enqueueTcpLayerData`. -/
  | enqueueTcpLayerData (connId : Int) (payload : List Nat) (tot_len : Nat)
  /-- Engine call `tcp_recved(pcb, len)`. -/
  | tcp_recved (pcb : Option Nat) (len : Nat)
  /-- Engine call `if_receive_packet`, with the current-segment slot at that moment. -/
  | if_receive_packet (interfaceId : Int) (data : IpBuffer) (totalIpLen : Nat) (cur : Option Packet)
  /-- Connection operation `connect`. -/
  | connect (connId : Int) (localAddr : L3Address) (localPort : Int)
      (remoteAddr : L3Address) (remotePort : Int)
  /-- Connection operation `listen`. -/
  | listen (connId : Int) (localAddr : L3Address) (localPort : Int)
  /-- Connection operation `accept`. -/
  | accept (connId : Int)
  /-- Connection operation `send`. -/
  | send (connId : Int) (payload : List Nat)
  /-- Connection operation `close`. -/
  | close (connId : Int)
  /-- Connection operation `abort`. -/
  | abort (connId : Int)
  /-- Status snapshot `fillStatusInfo` and the STATUS reply sent on `appOut`. -/
  | status (connId : Int)
  /-- Engine call `tcp_fasttmr`. -/
  | tcp_fasttmr
  /-- Engine call `tcp_slowtmr`. -/
  | tcp_slowtmr
  /-- Kernel call `scheduleAt(t, pLwipFastTimerM)`. -/
  | scheduleAt (t : Int)
  /-- Connection callback `notifyAboutSending`. -/
  | notifyAboutSending (connId : Int) (tcpHdr : TcpHeader)
  /-- Packet sent to the network layer, `send(packet, "ipOut")`. -/
  | sendIpOut (packet : OutboundPacket)
  deriving DecidableEq, Repr

/-- The status notification an effect is, when it is one for connection `id`. -/
def Effect.indicationFor (id : Int) : Effect → Option TcpStatusInd
  | .indication c ind => if c = id then some ind else none
  | _ => none

/-- The status notifications for connection `id` in a trace, in order. -/
def statusNotifications (id : Int) (trace : List Effect) : List TcpStatusInd :=
  trace.filterMap (Effect.indicationFor id)

/-- The lwIP layer object behind `pLwipTcpLayerM`: the heads of its handle lists. -/
structure LwipTcpLayer where
  tcp_active_pcbs : Option Nat
  tcp_tw_pcbs : Option Nat
  deriving DecidableEq, Repr

/-- State of an initialised `TCP_lwIP` module (`pLwipTcpLayerM` and
`pLwipFastTimerM` are allocated in `initialize`). -/
structure TCP_lwIP where
  tcpAppConnMapM : StdMap Int TcpLwipConnection
  pcbs : StdMap Nat tcp_pcb
  pLwipTcpLayerM : LwipTcpLayer
  pCurTcpSegM : Option Packet
  fastTimerScheduledAt : Option Int
  trace : List Effect
  deriving DecidableEq, Repr

/-- Ways an operation ends abnormally. -/
inductive Fault where
  /-- Failure of an `ASSERT`. -/
  | assertFailed
  /-- Failure of a `check_and_cast`. -/
  | checkAndCast
  /-- Dereference of `nullptr` or of a handle that is not allocated. -/
  | nullDeref
  /-- Message "Invalid LWIP error code". -/
  | invalidLwipErrorCode (err : Int)
  /-- Message "Invalid lwip_event". -/
  | invalidLwipEvent
  /-- Message "Wrong command from app". -/
  | wrongCommand (kind : Int)
  /-- Message "Error processing command OPEN_ACTIVE: remote address and port must be specified". -/
  | openActiveUnspecified
  /-- Message "Error processing command OPEN_PASSIVE: local port must be specified". -/
  | openPassiveUnspecified
  /-- Message "Unknown self message". -/
  | unknownSelfMessage
  /-- Message "Unknown protocol". -/
  | unknownProtocol
  /-- A fault raised inside the engine or one of its callbacks. -/
  | engine
  /-- Integer division by zero. -/
  | divisionByZero
  /-- Overflow of the 64-bit tick count in simulation time arithmetic. -/
  | simTimeOverflow
  /-- Failure to read a header from the bytes of a packet. -/
  | malformedPacket
  deriving DecidableEq, Repr

/-- Outcome of a member function: a normal return with its value, or a thrown
fault; both carry the module state reached. -/
inductive Result (α : Type) where
  | ok (ret : α) (s : TCP_lwIP)
  | thrown (f : Fault) (s : TCP_lwIP)
  deriving DecidableEq, Repr

/-- State carried by an outcome. -/
def Result.state {α : Type} : Result α → TCP_lwIP
  | .ok _ s => s
  | .thrown _ s => s

/-- Whether the outcome is a fatal one. -/
def Result.isFatal {α : Type} : Result α → Bool
  | .ok _ _ => false
  | .thrown _ _ => true

/-- Append an effect to the trace. -/
def TCP_lwIP.emit (s : TCP_lwIP) (e : Effect) : TCP_lwIP :=
  { s with trace := s.trace ++ [e] }

/-! ## lwIP error codes (`lwip/err.h`) -/

/-- No error. -/
def ERR_OK : Int := 0
/-- Connection aborted. -/
def ERR_ABRT : Int := -5
/-- Connection reset. -/
def ERR_RST : Int := -6

/-! ## Collaborators -/

/-- What the engine may have changed when a connection operation of an
application command (`connect`, `listen`, `accept`, `send`, `close`, `abort`)
returns: its handle lists and its handle memory, and, through the callbacks it
makes, the registry and the trace; `fault` is a fault thrown on the way. The
current-segment slot and the fast timer are members no callback writes. -/
structure EngineReaction where
  tcpAppConnMapM : StdMap Int TcpLwipConnection
  pcbs : StdMap Nat tcp_pcb
  pLwipTcpLayerM : LwipTcpLayer
  trace : List Effect
  fault : Option Fault

/-- The module state after the engine has returned from a connection operation. -/
def applyReaction (s : TCP_lwIP) (r : EngineReaction) : Result Unit :=
  let s := { s with tcpAppConnMapM := r.tcpAppConnMapM, pcbs := r.pcbs,
                    pLwipTcpLayerM := r.pLwipTcpLayerM, trace := r.trace }
  match r.fault with
  | none => .ok () s
  | some f => .thrown f s

/-- An engine that a connection operation leaves as it was. -/
def noReaction (s : TCP_lwIP) : EngineReaction :=
  { tcpAppConnMapM := s.tcpAppConnMapM, pcbs := s.pcbs, pLwipTcpLayerM := s.pLwipTcpLayerM,
    trace := s.trace, fault := none }

/-- What `handleIpInputMessage` and the connection operations need from outside
the module. -/
structure Collaborators where
  /-- Value of `sizeof(ip_hdr)`. -/
  sizeof_ip_hdr : Nat
  /-- Bytes that `packet->peekDataBytes()->copyToBuffer(buffer, capacity)` writes. -/
  copyToBuffer : Packet → Nat → List Nat
  /-- The engine entry `if_receive_packet`, which may call back into the module. -/
  if_receive_packet : Int → IpBuffer → Nat → TCP_lwIP → Result Unit
  /-- The engine as the connection operation of a command enters it: the module
  state in which the operation is recorded, and what the engine leaves. -/
  connectionOperation : TCP_lwIP → EngineReaction

/-! ## Member functions of `TCP_lwIP` -/

/-- Lookup in the registry, `TCP_lwIP::findAppConn`. -/
def findAppConn (s : TCP_lwIP) (connIdP : Int) : Option TcpLwipConnection :=
  StdMap.find connIdP s.tcpAppConnMapM

/-- Modelled from the spec: `TcpLwipConnection::sendIndicationToApp` (not in src)
sends one status notification for the connection. -/
def sendIndicationToApp (s : TCP_lwIP) (conn : TcpLwipConnection) (ind : TcpStatusInd) : TCP_lwIP :=
  s.emit (.indication conn.connIdM ind)

/-- Modelled from the spec: `TcpLwipConnection::sendAvailableIndicationToApp`
(not in src) notifies the listening connection's owner with the new identifier. -/
def sendAvailableIndicationToApp (s : TCP_lwIP) (newConn : TcpLwipConnection)
    (listenConnId : Int) : TCP_lwIP :=
  s.emit (.available listenConnId newConn.connIdM)

/-- Header rewrite of the `CRC_DECLARED_CORRECT` case. -/
def rewriteDeclaredCorrect (packet : Packet) : Packet :=
  { packet with header := { packet.header with crcMode := .CRC_COMPUTED, crc := 0 } }

/-- One step of the loop over `tcpAppConnMapM` that fills in the unfilled local
address of a handle in `SYN_SENT`. -/
def fillLocalAddrStep (laddr raddr : L3Address) (lport rport : Nat)
    (pcbs : StdMap Nat tcp_pcb) (elem : Int × TcpLwipConnection) : StdMap Nat tcp_pcb :=
  match elem.2.pcbM with
  | none => pcbs
  | some p =>
    StdMap.modify p (fun pcb =>
      if pcb.state = .SYN_SENT ∧ pcb.local_ip.isUnspecified = true ∧ pcb.local_port = lport
          ∧ pcb.remote_ip = raddr ∧ pcb.remote_port = rport
      then { pcb with local_ip := laddr } else pcb) pcbs

/-- Size of the buffer allocated for the synthetic frame. -/
def maxBufferSize : Nat := 4096

/-- The loop over `tcpAppConnMapM` run for a segment with SYN and ACK set. -/
def fillLocalAddr (laddr raddr : L3Address) (lport rport : Nat) (s : TCP_lwIP) : TCP_lwIP :=
  { s with pcbs := s.tcpAppConnMapM.foldl (fillLocalAddrStep laddr raddr lport rport) s.pcbs }

/-- The synthetic frame built in the buffer: the modified lwIP IP header, then the
bytes of the segment. -/
def buildIpBuffer (env : Collaborators) (packet : Packet) : IpBuffer :=
  let ipHdrLen := env.sizeof_ip_hdr
  let totalTcpLen := (maxBufferSize + 2 ^ 64 - ipHdrLen) % 2 ^ 64
  { _hl := ipHdrLen / 4, _chksum := 0, src := packet.srcAddress, dest := packet.destAddress,
    tcp := env.copyToBuffer packet totalTcpLen }

/-- What follows the return of the engine: the current-segment slot is cleared;
a fault thrown inside the engine propagates. -/
def afterEngine : Result Unit → Result Unit
  | .thrown f s => .thrown f s
  | .ok _ s => .ok () { s with pCurTcpSegM := none }

/-- Inbound segment path, `TCP_lwIP::handleIpInputMessage`. -/
def handleIpInputMessage (env : Collaborators) (s : TCP_lwIP) (packet : Packet) : Result Unit :=
  let interfaceId := packet.interfaceId
  match packet.header.crcMode with
  | .CRC_DECLARED_INCORRECT => .ok () s
  | mode =>
    let packet := if mode = .CRC_DECLARED_CORRECT then rewriteDeclaredCorrect packet else packet
    let tcpsegP := packet.header
    let ipHdrLen := env.sizeof_ip_hdr
    if (ipHdrLen / 4) * 4 ≠ ipHdrLen then .thrown .assertFailed s
    else
      let data := buildIpBuffer env packet
      let totalTcpLen := data.tcp.length
      let totalIpLen := ipHdrLen + totalTcpLen
      let laddr := data.dest
      let raddr := data.src
      let lport := tcpsegP.destPort
      let rport := tcpsegP.srcPort
      let s := if tcpsegP.synBit && tcpsegP.ackBit then fillLocalAddr laddr raddr lport rport s else s
      if s.pCurTcpSegM ≠ none then .thrown .assertFailed s
      else
        let s := { s with pCurTcpSegM := some packet }
        let s := s.emit (.if_receive_packet interfaceId data totalIpLen s.pCurTcpSegM)
        afterEngine (env.if_receive_packet interfaceId data totalIpLen s)

/-- Payload chain handed over by the engine with a RECV event, `struct pbuf`. -/
structure pbuf where
  payload : List Nat
  len : Nat
  tot_len : Nat
  deriving DecidableEq, Repr

/-- Handler of the RECV event, `TCP_lwIP::tcp_event_recv`. -/
def tcp_event_recv (s : TCP_lwIP) (conn : TcpLwipConnection) (p : Option pbuf) (err : Int) :
    Result Int :=
  let r : Result Unit :=
    match p with
    | none =>
      match conn.pcbM with
      | none => .thrown .nullDeref s
      | some h =>
        match StdMap.find h s.pcbs with
        | none => .thrown .nullDeref s
        | some pcb =>
          let ind := if pcb.state = .TIME_WAIT then TcpStatusInd.TCP_I_CLOSED
                     else TcpStatusInd.TCP_I_PEER_CLOSED
          let s := sendIndicationToApp s conn ind
          .ok () (s.emit (.tcp_recved conn.pcbM 0))
    | some p =>
      let s := s.emit (.enqueueTcpLayerData conn.connIdM p.payload p.tot_len)
      .ok () (s.emit (.tcp_recved conn.pcbM p.tot_len))
  match r with
  | .thrown f s => .thrown f s
  | .ok _ s =>
    let s := s.emit (.sendUpData conn.connIdM)
    let s := s.emit (.do_SEND conn.connIdM)
    .ok err s

/-- Destruction of a connection, `TCP_lwIP::removeConnection`. -/
def removeConnection (s : TCP_lwIP) (conn : TcpLwipConnection) : Result Unit :=
  match conn.pcbM with
  | none => .thrown .nullDeref s
  | some h =>
    match StdMap.find h s.pcbs with
    | none => .thrown .nullDeref s
    | some _ =>
      let s := { s with pcbs := StdMap.modify h (fun pcb => { pcb with callback_arg := none }) s.pcbs }
      .ok () { s with tcpAppConnMapM := StdMap.erase conn.connIdM s.tcpAppConnMapM }

/-- Handler of the ERR event, `TCP_lwIP::tcp_event_err`. -/
def tcp_event_err (s : TCP_lwIP) (conn : TcpLwipConnection) (err : Int) : Result Int :=
  if err = ERR_ABRT then
    match removeConnection (sendIndicationToApp s conn .TCP_I_CLOSED) conn with
    | .thrown f s => .thrown f s
    | .ok _ s => .ok err s
  else if err = ERR_RST then
    match removeConnection (sendIndicationToApp s conn .TCP_I_CONNECTION_RESET) conn with
    | .thrown f s => .thrown f s
    | .ok _ s => .ok err s
  else .thrown (.invalidLwipErrorCode err) s

/-- Modelled from the spec: the constructor `TcpLwipConnection(conn, connId, pcb)`
(not in src) binds the new Connection to the given engine handle and sets the
handle's back-reference to the new Connection; the transfer mode is the one of
the listening connection. -/
def TcpLwipConnection.fromAccept (s : TCP_lwIP) (conn : TcpLwipConnection) (connIdP : Int)
    (pcbP : Nat) : TcpLwipConnection × TCP_lwIP :=
  ({ connIdM := connIdP, pcbM := some pcbP, dataTransferModeM := conn.dataTransferModeM },
   { s with pcbs := StdMap.modify pcbP (fun pcb => { pcb with callback_arg := some connIdP }) s.pcbs })

/-- Handler of the ACCEPT event, `TCP_lwIP::tcp_event_accept`; `uniqueNumber` is
the value `getEnvir()->getUniqueNumber()` returns. -/
def tcp_event_accept (s : TCP_lwIP) (uniqueNumber : Int) (conn : TcpLwipConnection) (pcb : Nat)
    (err : Int) : Result Int :=
  let newConnId := uniqueNumber
  let (newConn, s) := TcpLwipConnection.fromAccept s conn newConnId pcb
  let s := { s with tcpAppConnMapM := StdMap.assign newConnId newConn s.tcpAppConnMapM }
  let s := sendAvailableIndicationToApp s newConn conn.connIdM
  .ok err s

/-- Modelled from the spec: `TcpLwipConnection::sendEstablishedMsg` (not in src)
sends the ESTABLISHED notification for the connection. -/
def sendEstablishedMsg (s : TCP_lwIP) (conn : TcpLwipConnection) : TCP_lwIP :=
  s.emit (.established conn.connIdM)

/-- Handler of the SENT event, `TCP_lwIP::tcp_event_sent`. -/
def tcp_event_sent (s : TCP_lwIP) (conn : TcpLwipConnection) (_size : Nat) : Result Int :=
  .ok ERR_OK (s.emit (.do_SEND conn.connIdM))

/-- Handler of the CONNECTED event, `TCP_lwIP::tcp_event_conn`. -/
def tcp_event_conn (s : TCP_lwIP) (conn : TcpLwipConnection) (err : Int) : Result Int :=
  let s := sendEstablishedMsg s conn
  let s := s.emit (.do_SEND conn.connIdM)
  .ok err s

/-- Handler of the POLL event, `TCP_lwIP::tcp_event_poll`. -/
def tcp_event_poll (s : TCP_lwIP) (conn : TcpLwipConnection) : Result Int :=
  .ok ERR_OK (s.emit (.do_SEND conn.connIdM))

/-- Event kinds of the engine callback, `LwipTcpLayer::lwip_event`; `invalid` is
any value outside the enumeration. -/
inductive lwip_event where
  | LWIP_EVENT_ACCEPT | LWIP_EVENT_SENT | LWIP_EVENT_RECV | LWIP_EVENT_CONNECTED
  | LWIP_EVENT_POLL | LWIP_EVENT_ERR
  | invalid (n : Int)
  deriving DecidableEq, Repr

/-- The engine callback, `TCP_lwIP::lwip_tcp_event`: `arg` is the connection the
back-reference of the handle points to, `pcb` the handle of the event, and
`uniqueNumber` what `getEnvir()->getUniqueNumber()` returns if it is asked. -/
def lwip_tcp_event (s : TCP_lwIP) (uniqueNumber : Int) (arg : Option TcpLwipConnection)
    (pcb : Option Nat) (event : lwip_event) (p : Option pbuf) (size : Nat) (err : Int) :
    Result Int :=
  match arg with
  | none => .thrown .assertFailed s
  | some conn =>
    match event with
    | .LWIP_EVENT_ACCEPT =>
      match pcb with
      | none => .thrown .nullDeref s
      | some h => tcp_event_accept s uniqueNumber conn h err
    | .LWIP_EVENT_SENT =>
      if conn.pcbM ≠ pcb then .thrown .assertFailed s else tcp_event_sent s conn size
    | .LWIP_EVENT_RECV =>
      if conn.pcbM ≠ pcb then .thrown .assertFailed s else tcp_event_recv s conn p err
    | .LWIP_EVENT_CONNECTED =>
      if conn.pcbM ≠ pcb then .thrown .assertFailed s else tcp_event_conn s conn err
    | .LWIP_EVENT_POLL =>
      if conn.pcbM = pcb then tcp_event_poll s conn else .ok err s
    | .LWIP_EVENT_ERR => tcp_event_err s conn err
    | .invalid _ => .thrown .invalidLwipEvent s

/-! ## Application commands -/

/-- Command codes of `TcpCommandCode` (`TCPCommand.msg`). -/
def TCP_C_OPEN_ACTIVE : Int := 1
/-- Passive open. -/
def TCP_C_OPEN_PASSIVE : Int := 2
/-- Accept of a forked connection. -/
def TCP_C_ACCEPT : Int := 3
/-- Send of data. -/
def TCP_C_SEND : Int := 4
/-- Graceful close. -/
def TCP_C_CLOSE : Int := 5
/-- Forcible teardown. -/
def TCP_C_ABORT : Int := 6
/-- Status query. -/
def TCP_C_STATUS : Int := 7

/-- Control info of the open commands, `TCPOpenCommand`. -/
structure TCPOpenCommand where
  localAddr : L3Address
  remoteAddr : L3Address
  localPort : Int
  remotePort : Int
  fork : Bool
  dataTransferMode : Int
  deriving DecidableEq, Repr

/-- Dynamic type of the object attached to a message as control info. -/
inductive ControlInfo where
  /-- A `TCPOpenCommand`, which is a `TCPCommand`. -/
  | openCommand (c : TCPOpenCommand)
  /-- A `TCPAcceptCommand`, which is a `TCPCommand`. -/
  | acceptCommand
  /-- A `TCPCommand` of no more specific type used here. -/
  | command
  /-- An object that is not a `TCPCommand`. -/
  | other
  deriving DecidableEq, Repr

/-- Message from the application: its kind, the socket identifier of its
`SocketReq` tag, the attached control info (`none` is `nullptr`), and the payload
when its dynamic type is `Packet`. -/
structure cMessage where
  kind : Int
  socketId : Int
  controlInfo : Option ControlInfo
  asPacket : Option (List Nat)
  deriving DecidableEq, Repr

/-- Handler `TCP_lwIP::process_OPEN_ACTIVE`. -/
def process_OPEN_ACTIVE (s : TCP_lwIP) (connP : TcpLwipConnection) (tcpCommandP : TCPOpenCommand)
    (_msgP : cMessage) : Result Unit :=
  if tcpCommandP.remoteAddr.isUnspecified = true ∨ tcpCommandP.remotePort = -1 then
    .thrown .openActiveUnspecified s
  else
    let localPort := tcpCommandP.localPort
    let localPort := if localPort = -1 then 0 else localPort
    .ok () (s.emit (.connect connP.connIdM tcpCommandP.localAddr localPort
      tcpCommandP.remoteAddr tcpCommandP.remotePort))

/-- Handler `TCP_lwIP::process_OPEN_PASSIVE`. -/
def process_OPEN_PASSIVE (s : TCP_lwIP) (connP : TcpLwipConnection) (tcpCommandP : TCPOpenCommand)
    (_msgP : cMessage) : Result Unit :=
  if tcpCommandP.fork ≠ true then .thrown .assertFailed s
  else if tcpCommandP.localPort = -1 then .thrown .openPassiveUnspecified s
  else .ok () (s.emit (.listen connP.connIdM tcpCommandP.localAddr tcpCommandP.localPort))

/-- Handler `TCP_lwIP::process_ACCEPT`. -/
def process_ACCEPT (s : TCP_lwIP) (connP : TcpLwipConnection) (_msg : cMessage) : Result Unit :=
  .ok () (s.emit (.accept connP.connIdM))

/-- Handler `TCP_lwIP::process_SEND`. -/
def process_SEND (s : TCP_lwIP) (connP : TcpLwipConnection) (msgP : List Nat) : Result Unit :=
  .ok () (s.emit (.send connP.connIdM msgP))

/-- Handler `TCP_lwIP::process_CLOSE`. -/
def process_CLOSE (s : TCP_lwIP) (connP : TcpLwipConnection) (_msgP : cMessage) : Result Unit :=
  .ok () (s.emit (.close connP.connIdM))

/-- Handler `TCP_lwIP::process_ABORT`. -/
def process_ABORT (s : TCP_lwIP) (connP : TcpLwipConnection) (_msgP : cMessage) : Result Unit :=
  .ok () (s.emit (.abort connP.connIdM))

/-- Handler `TCP_lwIP::process_STATUS`. -/
def process_STATUS (s : TCP_lwIP) (connP : TcpLwipConnection) (_msgP : cMessage) : Result Unit :=
  .ok () (s.emit (.status connP.connIdM))

/-- Dispatch by command kind, `TCP_lwIP::processAppCommand`. -/
def processAppCommand (s : TCP_lwIP) (connP : TcpLwipConnection) (msgP : cMessage) : Result Unit :=
  -- check_and_cast_nullable<TCPCommand *>(msgP->removeControlInfo())
  match msgP.controlInfo with
  | some .other => .thrown .checkAndCast s
  | tcpCommand =>
    if msgP.kind = TCP_C_OPEN_ACTIVE then
      match tcpCommand with
      | some (.openCommand c) => process_OPEN_ACTIVE s connP c msgP
      | _ => .thrown .checkAndCast s
    else if msgP.kind = TCP_C_OPEN_PASSIVE then
      match tcpCommand with
      | some (.openCommand c) => process_OPEN_PASSIVE s connP c msgP
      | _ => .thrown .checkAndCast s
    else if msgP.kind = TCP_C_ACCEPT then
      match tcpCommand with
      | some .acceptCommand => process_ACCEPT s connP msgP
      | _ => .thrown .checkAndCast s
    else if msgP.kind = TCP_C_SEND then
      match msgP.asPacket with
      | some pk => process_SEND s connP pk
      | none => .thrown .checkAndCast s
    else if msgP.kind = TCP_C_CLOSE then
      if tcpCommand = none then .thrown .assertFailed s else process_CLOSE s connP msgP
    else if msgP.kind = TCP_C_ABORT then
      if tcpCommand = none then .thrown .assertFailed s else process_ABORT s connP msgP
    else if msgP.kind = TCP_C_STATUS then
      if tcpCommand = none then .thrown .assertFailed s else process_STATUS s connP msgP
    else .thrown (.wrongCommand msgP.kind) s

/-- Address of the handle the engine allocates next: one past the highest in use. -/
def freshPcb (pcbs : StdMap Nat tcp_pcb) : Nat :=
  pcbs.foldl (fun m e => max m (e.1 + 1)) 0

/-- Modelled from the spec: the constructor `TcpLwipConnection(tcp, connId, mode)`
(not in src) gives the new Connection the identifier and the transfer mode it is
created with, and an engine handle of its own whose back-reference points to it. -/
def TcpLwipConnection.fromOpen (s : TCP_lwIP) (connIdP : Int) (dataTransferModeP : Int) :
    TcpLwipConnection × TCP_lwIP :=
  let h := freshPcb s.pcbs
  let pcb : tcp_pcb :=
    { state := .CLOSED, local_ip := .unspecified, local_port := 0, remote_ip := .unspecified,
      remote_port := 0, callback_arg := some connIdP }
  ({ connIdM := connIdP, pcbM := some h, dataTransferModeM := dataTransferModeP },
   { s with pcbs := StdMap.assign h pcb s.pcbs })

/-- Entry of application commands, `TCP_lwIP::handleAppMessage`. -/
def handleAppMessage (s : TCP_lwIP) (msgP : cMessage) : Result Unit :=
  let connId := msgP.socketId
  match findAppConn s connId with
  | some conn => processAppCommand s conn msgP
  | none =>
    -- check_and_cast<TCPOpenCommand *>(msgP->getControlInfo())
    match msgP.controlInfo with
    | some (.openCommand openCmd) =>
      let dataTransferMode := openCmd.dataTransferMode
      let (conn, s) := TcpLwipConnection.fromOpen s connId dataTransferMode
      let s := { s with tcpAppConnMapM := StdMap.assign connId conn s.tcpAppConnMapM }
      processAppCommand s conn msgP
    | _ => .thrown .checkAndCast s

/-- Whether the control info of the message is a `TCPCommand` (so not `nullptr`). -/
def cMessage.hasTCPCommand (msg : cMessage) : Bool :=
  match msg.controlInfo with
  | some .other => false
  | none => false
  | some _ => true

/-- Whether the kind is one of the seven command kinds. -/
def isCommandKind (kind : Int) : Bool :=
  decide (kind = TCP_C_OPEN_ACTIVE ∨ kind = TCP_C_OPEN_PASSIVE ∨ kind = TCP_C_ACCEPT
    ∨ kind = TCP_C_SEND ∨ kind = TCP_C_CLOSE ∨ kind = TCP_C_ABORT ∨ kind = TCP_C_STATUS)

/-! ## Sample configurations -/

/-- An engine that accepts every frame and does nothing. -/
def idleEngine : Int → IpBuffer → Nat → TCP_lwIP → Result Unit :=
  fun _ _ _ s => .ok () s

/-- Collaborators with a 20-byte IP header, a codec that copies the payload
bytes, and the idle engine. -/
def sampleEnv : Collaborators :=
  { sizeof_ip_hdr := 20, copyToBuffer := fun pk cap => pk.payload.take cap,
    if_receive_packet := idleEngine, connectionOperation := noReaction }

/-- A handle in the given engine state, owned by connection `owner`. -/
def samplePcb (st : tcp_state) (owner : Int) : tcp_pcb :=
  { state := st, local_ip := .unspecified, local_port := 1025, remote_ip := .addr 2,
    remote_port := 80, callback_arg := some owner }

/-- A module with a listening connection 7 on handle 0 and a connection 9 in
`TIME_WAIT` on handle 1. -/
def sampleState : TCP_lwIP :=
  { tcpAppConnMapM := [(7, { connIdM := 7, pcbM := some 0, dataTransferModeM := 1 }),
                       (9, { connIdM := 9, pcbM := some 1, dataTransferModeM := 1 })],
    pcbs := [(0, samplePcb .LISTEN 7), (1, samplePcb .TIME_WAIT 9), (2, samplePcb .SYN_RCVD 7)],
    pLwipTcpLayerM := { tcp_active_pcbs := some 2, tcp_tw_pcbs := some 1 },
    pCurTcpSegM := none,
    fastTimerScheduledAt := none,
    trace := [] }

/-- The connection registered under 7 in `sampleState`. -/
def sampleListener : TcpLwipConnection :=
  { connIdM := 7, pcbM := some 0, dataTransferModeM := 1 }

/-- The connection registered under 9 in `sampleState`. -/
def sampleConn : TcpLwipConnection :=
  { connIdM := 9, pcbM := some 1, dataTransferModeM := 1 }

/-- A SYN+ACK header with the given checksum mode and checksum 4660. -/
def sampleHeader (mode : CrcMode) : TcpHeader :=
  { srcPort := 80, destPort := 1025, sequenceNo := 100, ackNo := 1, headerLength := 20,
    urgBit := false, ackBit := true, pshBit := false, rstBit := false, synBit := true,
    finBit := false, window := 512, urgentPointer := 0, crc := 4660, crcMode := mode }

/-- An inbound packet with the given checksum mode. -/
def samplePacket (mode : CrcMode) : Packet :=
  { header := sampleHeader mode, payload := [1, 2, 3], srcAddress := .addr 2,
    destAddress := .addr 1, interfaceId := 101 }

/-- An open command towards 10.0.0.2:80 (address 167772162) with unspecified
local port. -/
def sampleOpenCommand : TCPOpenCommand :=
  { localAddr := .unspecified, remoteAddr := .addr 167772162, localPort := -1, remotePort := 80,
    fork := true, dataTransferMode := 3 }

/-- An OPEN_ACTIVE message for socket 21, which `sampleState` does not know. -/
def sampleOpenActive : cMessage :=
  { kind := TCP_C_OPEN_ACTIVE, socketId := 21, controlInfo := some (.openCommand sampleOpenCommand),
    asPacket := none }

/-- An OPEN_PASSIVE command on port 8080. -/
def sampleListenCommand : TCPOpenCommand :=
  { localAddr := .addr 1, remoteAddr := .unspecified, localPort := 8080, remotePort := -1,
    fork := true, dataTransferMode := 3 }

/-- A CLOSE message for socket 9, registered in `sampleState`. -/
def sampleClose : cMessage :=
  { kind := TCP_C_CLOSE, socketId := 9, controlInfo := some .command, asPacket := none }

/-- A message of kind 8, which is none of the seven command kinds. -/
def sampleUnknownKind : cMessage :=
  { kind := 8, socketId := 9, controlInfo := some .command, asPacket := none }

/-! ## Messages and the maintenance timer -/

/-- The function `roundTime`. Simulation time is a count of clock ticks, `scale`
ticks to the second (`SimTime::getScale`); `/=` is the truncating integer
division of C++ and `*=` the multiplication on tick counts. A zero divisor,
which C++ leaves undefined, gives `none`. -/
def roundTime (scale : Int) (timeP : Int) (secSlicesP : Int) : Option Int :=
  if secSlicesP = 0 then none
  else
    let scale := Int.tdiv scale secSlicesP
    if scale = 0 then none
    else
      let ret := timeP
      let ret := Int.tdiv ret scale
      let ret := ret * scale
      some ret

/-- The tick count of the time interval written `0.250`: the conversion of the
literal to simulation time truncates `scale * 0.25`. -/
def quarterSecond (scale : Int) : Int :=
  Int.tdiv scale 4

/-- The condition `simTime() == roundTime(simTime(), 2)` under which the slow tick
is run. -/
def slowTickDue (scale : Int) (now : Int) : Option Bool :=
  (roundTime scale now 2).map (fun r => decide (now = r))

/-- Largest tick count a simulation time holds, `INT64_MAX`. -/
def maxSimTime : Int := 2 ^ 63 - 1

/-- Addition of simulation times: the sum of the tick counts, or `none` when it
does not fit the 64-bit tick count, in which case the addition raises an error. -/
def simTimeAdd (a b : Int) : Option Int :=
  if a + b > maxSimTime ∨ a + b < -(2 ^ 63) then none else some (a + b)

/-- The time `roundTime(simTime() + 0.250, 4)` at which the fast timer is armed,
when the addition does not overflow and `roundTime` does not divide by zero. -/
def fastTimerArmTime (scale : Int) (now : Int) : Option Int :=
  match simTimeAdd now (quarterSecond scale) with
  | none => none
  | some sum => roundTime scale sum 4

/-- The two periodic entry points of the engine, which may call back into the
module. -/
structure EngineTimers where
  tcp_fasttmr : TCP_lwIP → Result Unit
  tcp_slowtmr : TCP_lwIP → Result Unit

/-- A message delivered to the module: the fast timer firing, another self
message, a message arriving on `ipIn` with its protocol tag (and the packet, if
it is one), or anything else, which must be from the application. -/
inductive Message where
  | selfFastTimer
  | selfOther
  | ipIn (protocol : Protocol) (pk : Option Packet)
  | fromApp (msgP : cMessage)
  deriving DecidableEq, Repr

/-- The branches of `TCP_lwIP::handleMessage` up to the final timer check. -/
def dispatchMessage (env : Collaborators) (ticks : EngineTimers) (scale now : Int)
    (s : TCP_lwIP) : Message → Result Unit
  | .selfFastTimer =>
    let s := s.emit .tcp_fasttmr
    match ticks.tcp_fasttmr s with
    | .thrown f s => .thrown f s
    | .ok _ s =>
      match slowTickDue scale now with
      | none => .thrown .divisionByZero s
      | some true =>
        let s := s.emit .tcp_slowtmr
        ticks.tcp_slowtmr s
      | some false => .ok () s
  | .selfOther => .thrown .unknownSelfMessage s
  | .ipIn protocol pk =>
    match pk with
    | none => .thrown .checkAndCast s
    | some pk =>
      if protocol = .tcp then handleIpInputMessage env s pk
      else if protocol = .icmpv4 ∨ protocol = .icmpv6 then .ok () s
      else .thrown .unknownProtocol s
  | .fromApp msgP =>
    match handleAppMessage s msgP with
    | .thrown f s => .thrown f s
    | .ok _ s =>
      -- every command but STATUS ends in a connection operation that enters the engine
      if msgP.kind = TCP_C_STATUS then .ok () s
      else applyReaction s (env.connectionOperation s)

/-- The final part of `TCP_lwIP::handleMessage`: arming of the fast timer. -/
def armFastTimer (scale now : Int) (s : TCP_lwIP) : Result Unit :=
  if s.fastTimerScheduledAt = none then
    if s.pLwipTcpLayerM.tcp_active_pcbs ≠ none ∨ s.pLwipTcpLayerM.tcp_tw_pcbs ≠ none then
      match simTimeAdd now (quarterSecond scale) with
      | none => .thrown .simTimeOverflow s
      | some sum =>
        match roundTime scale sum 4 with
        | none => .thrown .divisionByZero s
        | some t => .ok () ({ s with fastTimerScheduledAt := some t }.emit (.scheduleAt t))
    else .ok () s
  else .ok () s

/-- The state in which a message is handled: a timer that fires has left the
schedule of the simulation kernel, so `pLwipFastTimerM->isScheduled()` is false
while it is handled. -/
def delivered (s : TCP_lwIP) : Message → TCP_lwIP
  | .selfFastTimer => { s with fastTimerScheduledAt := none }
  | _ => s

/-- Entry of every message, `TCP_lwIP::handleMessage`, at simulation time `now`. -/
def handleMessage (env : Collaborators) (ticks : EngineTimers) (scale now : Int)
    (s : TCP_lwIP) (msgP : Message) : Result Unit :=
  match dispatchMessage env ticks scale now (delivered s msgP) msgP with
  | .thrown f s => .thrown f s
  | .ok _ s => armFastTimer scale now s

/-- The module right after `initialize`: no connection, no engine handle, the
current-segment slot `nullptr` as the constructor sets it, the fast timer not
scheduled. -/
def initialState : TCP_lwIP :=
  { tcpAppConnMapM := [], pcbs := [],
    pLwipTcpLayerM := { tcp_active_pcbs := none, tcp_tw_pcbs := none },
    pCurTcpSegM := none, fastTimerScheduledAt := none, trace := [] }

/-- The module handling a sequence of messages one at a time, each at its
simulation time; a thrown fault ends the run. -/
def runMessages (env : Collaborators) (ticks : EngineTimers) (scale : Int) :
    List (Int × Message) → TCP_lwIP → Result Unit
  | [], s => .ok () s
  | (now, msgP) :: rest, s =>
    match handleMessage env ticks scale now s msgP with
    | .thrown f s => .thrown f s
    | .ok _ s => runMessages env ticks scale rest s

/-- Engine timers that do nothing. -/
def idleTimers : EngineTimers :=
  { tcp_fasttmr := fun s => .ok () s, tcp_slowtmr := fun s => .ok () s }

/-- What `ip_output` needs from outside the module. -/
structure OutputCollaborators where
  /-- Header and data of the packet `conn->sendQueueM->createSegmentWithBytes(dataP, lenP)`
  makes for the connection with the given identifier. -/
  createSegmentWithBytes : Int → List Nat → Nat → TcpHeader × List Nat
  /-- Result of `popHeader<TcpHeader>()` on a packet of the given bytes: the
  header and the bytes after it, or `none` when the bytes do not start with one. -/
  popTcpHeader : List Nat → Option (TcpHeader × List Nat)
  /-- Value of `destP.getAddressType()->getNetworkProtocol()`. -/
  getNetworkProtocol : L3Address → Protocol
  /-- Whether log statements of level INFO are evaluated. -/
  logInfoEnabled : Bool

/-- The part of `TCP_lwIP::ip_output` after the packet is made: tagging,
`notifyAboutSending`, the INFO log line, which reads `conn->connIdM`, and the
send on `ipOut`. -/
def ip_output_send (out : OutputCollaborators) (s : TCP_lwIP) (conn : Option Int)
    (srcP destP : L3Address) (tcpHdr : TcpHeader) (data : List Nat) : Result Unit :=
  let packet : OutboundPacket :=
    { header := tcpHdr, payload := data, packetProtocol := .tcp, transportProtocol := .tcp,
      dispatchProtocol := out.getNetworkProtocol destP, srcAddress := srcP, destAddress := destP }
  let s := match conn with
    | some c => s.emit (.notifyAboutSending c tcpHdr)
    | none => s
  if out.logInfoEnabled = true ∧ conn = none then .thrown .nullDeref s
  else .ok () (s.emit (.sendIpOut packet))

/-- Outbound segment path, `TCP_lwIP::ip_output`: `pcb` is the handle (`none` is
`nullptr`), `dataP` the bytes in the buffer and `lenP` their number. -/
def ip_output (out : OutputCollaborators) (s : TCP_lwIP) (pcb : Option Nat)
    (srcP destP : L3Address) (dataP : List Nat) (lenP : Nat) : Result Unit :=
  let connR : Option (Option Int) :=
    match pcb with
    | none => some none
    | some h => (StdMap.find h s.pcbs).map (fun pcb => pcb.callback_arg)
  match connR with
  | none => .thrown .nullDeref s
  | some (some c) =>
    let (tcpHdr, data) := out.createSegmentWithBytes c dataP lenP
    ip_output_send out s (some c) srcP destP tcpHdr data
  | some none =>
    match out.popTcpHeader (dataP.take lenP) with
    | none => .thrown .malformedPacket s
    | some (tcpHdr, rest) =>
      let numBytes := rest.length
      if numBytes ≠ 0 then .thrown .assertFailed s
      else ip_output_send out s none srcP destP tcpHdr []

/-- Output collaborators with a codec that reads a 20-byte header (whose fields
are those of `sampleHeader` in computed mode) and with the given log setting. -/
def sampleOut (logInfo : Bool) : OutputCollaborators :=
  { createSegmentWithBytes := fun _ d n => (sampleHeader .CRC_COMPUTED, (d.take n).drop 20),
    popTcpHeader := fun bs =>
      if 20 ≤ bs.length then some (sampleHeader .CRC_COMPUTED, bs.drop 20) else none,
    getNetworkProtocol := fun _ => .ipv4,
    logInfoEnabled := logInfo }

/-- The 20 bytes of a segment that is a header only. -/
def sampleHeaderOnlyBytes : List Nat :=
  [0, 80, 4, 1, 0, 0, 0, 100, 0, 0, 0, 1, 80, 20, 2, 0, 0, 0, 0, 0]

/-! ## A-MSDU deaggregation (`MsduDeaggregation.cc`) -/

/-- MAC address as a number; 0 is the unspecified address of a new header. -/
abbrev MACAddress := Nat

/-- Frame types used here, `Ieee80211Type`. -/
inductive Ieee80211Type where
  | ST_DATA | ST_DATA_WITH_QOS | other
  deriving DecidableEq, Repr

/-- Fields of an `Ieee80211DataHeader`. -/
structure Ieee80211DataHeader where
  type : Ieee80211Type
  toDS : Bool
  fromDS : Bool
  tid : Int
  receiverAddress : MACAddress
  transmitterAddress : MACAddress
  address3 : MACAddress
  address4 : MACAddress
  deriving DecidableEq, Repr

/-- A header as `std::make_shared<Ieee80211DataHeader>()` makes it. -/
def Ieee80211DataHeader.fresh : Ieee80211DataHeader :=
  { type := .ST_DATA, toDS := false, fromDS := false, tid := 0, receiverAddress := 0,
    transmitterAddress := 0, address3 := 0, address4 := 0 }

/-- Fields of an `Ieee80211MsduSubframeHeader`: the length of the MSDU in bytes,
the destination and the source address. -/
structure Ieee80211MsduSubframeHeader where
  length : Nat
  da : MACAddress
  sa : MACAddress
  deriving DecidableEq, Repr

/-- Byte length of an `Ieee80211MsduSubframeHeader` chunk (two addresses of 6
bytes and a length of 2). -/
def subframeHeaderChunkLength : Nat := 14

/-- The member function `MsduDeaggregation::setExplodedFrameAddress`; the header
written to is returned. -/
def setExplodedFrameAddress (header : Ieee80211DataHeader)
    (subframeHeader : Ieee80211MsduSubframeHeader) (aMsduHeader : Ieee80211DataHeader) :
    Ieee80211DataHeader :=
  let toDS := aMsduHeader.toDS
  let fromDS := aMsduHeader.fromDS
  if fromDS = false ∧ toDS = false then
    let header := { header with transmitterAddress := aMsduHeader.transmitterAddress }
    { header with receiverAddress := aMsduHeader.receiverAddress }
  else if fromDS = true ∧ toDS = false then
    let header := { header with transmitterAddress := header.transmitterAddress }
    let header := { header with receiverAddress := subframeHeader.da }
    { header with address3 := subframeHeader.sa }
  else if fromDS = false ∧ toDS = true then
    let header := { header with transmitterAddress := subframeHeader.sa }
    let header := { header with receiverAddress := aMsduHeader.receiverAddress }
    { header with address3 := subframeHeader.da }
  else if fromDS = true ∧ toDS = true then
    let header := { header with receiverAddress := aMsduHeader.receiverAddress }
    let header := { header with transmitterAddress := aMsduHeader.transmitterAddress }
    let header := { header with address3 := subframeHeader.da }
    { header with address4 := subframeHeader.sa }
  else header

/-- A frame as a `Packet`: the data header, the bytes between header and
trailer, and the MAC trailer (which carries nothing here). -/
structure Ieee80211Frame where
  header : Ieee80211DataHeader
  data : List Nat
  deriving DecidableEq, Repr

/-- Ways the packet operations of `deaggregateFrame` fail. -/
inductive DeaggregationError where
  /-- Header pop offset set beyond the end of the data. -/
  | offsetOutOfRange
  /-- No subframe header can be read at the pop offset. -/
  | noSubframeHeader
  /-- Fewer data bytes than the subframe header declares. -/
  | dataTooShort
  /-- The iteration bound of the model is used up. -/
  | outOfFuel
  deriving DecidableEq, Repr

/-- Outcome of `deaggregateFrame`. -/
inductive Deaggregated where
  | ok (frames : List Ieee80211Frame)
  | error (e : DeaggregationError)
  deriving DecidableEq, Repr

/-- The frame made for one subframe in the loop of `deaggregateFrame`. -/
def explodedFrame (amsduHeader : Ieee80211DataHeader) (tid : Int)
    (msduSubframeHeader : Ieee80211MsduSubframeHeader) (msdu : List Nat) : Ieee80211Frame :=
  let header := Ieee80211DataHeader.fresh
  let header := { header with type := .ST_DATA }
  let header := { header with toDS := amsduHeader.toDS }
  let header := { header with fromDS := amsduHeader.fromDS }
  let header := { header with tid := tid }
  let header := setExplodedFrameAddress header msduSubframeHeader amsduHeader
  { header := header, data := msdu }

/-- The `while` loop of `deaggregateFrame`. `data` is what lies between the header
pop offset and the trailer, `popSubframeHeader` the reading of a subframe header
at the pop offset, and `fuel` bounds the number of iterations. -/
def deaggregateLoop (popSubframeHeader : List Nat → Option Ieee80211MsduSubframeHeader)
    (amsduHeader : Ieee80211DataHeader) (tid : Int) :
    Nat → List Nat → Int → List Ieee80211Frame → Deaggregated
  | 0, _, _, _ => .error .outOfFuel
  | fuel + 1, data, paddingLength, frames =>
    if data.length > 0 then
      let skip := (if paddingLength = 4 then 0 else paddingLength).toNat
      if data.length < skip then .error .offsetOutOfRange
      else
        let data := data.drop skip
        match popSubframeHeader data with
        | none => .error .noSubframeHeader
        | some msduSubframeHeader =>
          if data.length < subframeHeaderChunkLength then .error .noSubframeHeader
          else
            let data := data.drop subframeHeaderChunkLength
            if data.length < msduSubframeHeader.length then .error .dataTooShort
            else
              let msdu := data.take msduSubframeHeader.length
              let paddingLength : Int :=
                4 - ((subframeHeaderChunkLength + msdu.length : Nat) : Int) % 4
              let data := data.drop msdu.length
              let frame := explodedFrame amsduHeader tid msduSubframeHeader msdu
              deaggregateLoop popSubframeHeader amsduHeader tid fuel data paddingLength
                (frames ++ [frame])
    else .ok frames

/-- The member function `MsduDeaggregation::deaggregateFrame`. Every iteration
of the loop takes at least a subframe header off the data, so the number of data
bytes bounds the number of iterations. -/
def deaggregateFrame (popSubframeHeader : List Nat → Option Ieee80211MsduSubframeHeader)
    (aggregatedFrame : Ieee80211Frame) : Deaggregated :=
  let amsduHeader := aggregatedFrame.header
  let tid := amsduHeader.tid
  let paddingLength : Int := 0
  deaggregateLoop popSubframeHeader amsduHeader tid (aggregatedFrame.data.length + 1)
    aggregatedFrame.data paddingLength []

/-- As the claim words it: one subframe of an A-MSDU body, a subframe header, the
MSDU, and the padding after it. -/
structure Subframe where
  header : Ieee80211MsduSubframeHeader
  msdu : List Nat
  padding : List Nat
  deriving DecidableEq, Repr

/-- As the claim words it: the number of bytes that pad a subframe of `n` bytes to
the next multiple of 4. -/
def paddingTo4 (n : Nat) : Nat :=
  (4 - n % 4) % 4

/-- As the claim words it: every subframe declares the length of its MSDU; every
subframe except the last is padded to the next multiple of 4 bytes, the last one
is not padded. -/
def wellFormedSubframes : List Subframe → Prop
  | [] => True
  | [x] => x.header.length = x.msdu.length ∧ x.padding = []
  | x :: y :: rest =>
    x.header.length = x.msdu.length
    ∧ x.padding.length = paddingTo4 (subframeHeaderChunkLength + x.msdu.length)
    ∧ wellFormedSubframes (y :: rest)

/-- As the claim words it: the body of an A-MSDU, the subframes one after the
other, each as header bytes, MSDU and padding. -/
def aMsduBody (serialize : Ieee80211MsduSubframeHeader → List Nat) : List Subframe → List Nat
  | [] => []
  | x :: rest => serialize x.header ++ x.msdu ++ x.padding ++ aMsduBody serialize rest

/-- A subframe header codec of 14 bytes: addresses below 256 in the last byte of
their 6, the length in two bytes. -/
def sampleSerialize (h : Ieee80211MsduSubframeHeader) : List Nat :=
  [0, 0, 0, 0, 0, h.da, 0, 0, 0, 0, 0, h.sa, h.length / 256, h.length % 256]

/-- The reading that goes with `sampleSerialize`. -/
def samplePopSubframeHeader (bs : List Nat) : Option Ieee80211MsduSubframeHeader :=
  match bs with
  | _ :: _ :: _ :: _ :: _ :: da :: _ :: _ :: _ :: _ :: _ :: sa :: hi :: lo :: _ =>
    some { length := hi * 256 + lo, da := da, sa := sa }
  | _ => none

/-- An A-MSDU header from an access point to a station, with TID 5. -/
def sampleAMsduHeader : Ieee80211DataHeader :=
  { type := .ST_DATA_WITH_QOS, toDS := false, fromDS := true, tid := 5, receiverAddress := 187,
    transmitterAddress := 170, address3 := 0, address4 := 0 }

/-- Two subframes: an MSDU of 3 bytes with 3 bytes of padding, then an MSDU of
2 bytes. -/
def sampleSubframes : List Subframe :=
  [{ header := { length := 3, da := 204, sa := 221 }, msdu := [1, 2, 3], padding := [0, 0, 0] },
   { header := { length := 2, da := 205, sa := 222 }, msdu := [4, 5], padding := [] }]

/-! ## PPP header and trailer serializers (`PPPHeaderSerializer.cc`) -/

/-- Output byte stream, `MemoryOutputStream` (declared outside src): the bytes
written so far. -/
structure MemoryOutputStream where
  data : List Nat
  deriving DecidableEq, Repr

/-- Stream operation `writeUint8`: the argument converted to `uint8_t` is
appended. -/
def MemoryOutputStream.writeUint8 (stream : MemoryOutputStream) (value : Int) :
    MemoryOutputStream :=
  { data := stream.data ++ [(value % 2 ^ 8).toNat] }

/-- Stream operation `writeUint16Be`: the argument converted to `uint16_t` is
appended, high byte first. -/
def MemoryOutputStream.writeUint16Be (stream : MemoryOutputStream) (value : Int) :
    MemoryOutputStream :=
  let v := (value % 2 ^ 16).toNat
  { data := stream.data ++ [v / 2 ^ 8, v % 2 ^ 8] }

/-- Input byte stream, `MemoryInputStream` (declared outside src): the bytes, the
read position, and the flag set by a read beyond the end. -/
structure MemoryInputStream where
  data : List Nat
  position : Nat
  isReadBeyondEnd : Bool
  deriving DecidableEq, Repr

/-- Stream operation `readUint8`: the byte at the read position; a read beyond
the end gives 0 and sets the flag. -/
def MemoryInputStream.readUint8 (stream : MemoryInputStream) : Nat × MemoryInputStream :=
  match stream.data[stream.position]? with
  | some b => (b, { stream with position := stream.position + 1 })
  | none => (0, { stream with position := stream.data.length, isReadBeyondEnd := true })

/-- Stream operation `readUint16Be`: two bytes, the high one first. -/
def MemoryInputStream.readUint16Be (stream : MemoryInputStream) : Nat × MemoryInputStream :=
  let (hi, stream) := stream.readUint8
  let (lo, stream) := stream.readUint8
  (hi * 2 ^ 8 + lo, stream)

/-- Fields of a `PppHeader`. -/
structure PppHeader where
  flag : Int
  address : Int
  control : Int
  protocol : Int
  deriving DecidableEq, Repr

/-- Fields of a `PppTrailer` that the serializer handles. -/
structure PppTrailer where
  fcs : Int
  deriving DecidableEq, Repr

/-- The member function `PppHeaderSerializer::serialize`. -/
def PppHeaderSerializer.serialize (stream : MemoryOutputStream) (pppHeader : PppHeader) :
    MemoryOutputStream :=
  let stream := stream.writeUint8 pppHeader.flag
  let stream := stream.writeUint8 pppHeader.address
  let stream := stream.writeUint8 pppHeader.control
  stream.writeUint16Be pppHeader.protocol

/-- The member function `PppHeaderSerializer::deserialize`: the header read and
the stream after the reads. -/
def PppHeaderSerializer.deserialize (stream : MemoryInputStream) :
    PppHeader × MemoryInputStream :=
  let (flag, stream) := stream.readUint8
  let (address, stream) := stream.readUint8
  let (control, stream) := stream.readUint8
  let (protocol, stream) := stream.readUint16Be
  ({ flag := flag, address := address, control := control, protocol := protocol }, stream)

/-- The member function `PppTrailerSerializer::serialize`. -/
def PppTrailerSerializer.serialize (stream : MemoryOutputStream) (pppTrailer : PppTrailer) :
    MemoryOutputStream :=
  stream.writeUint16Be pppTrailer.fcs

/-- The member function `PppTrailerSerializer::deserialize`: the trailer read and
the stream after the read. -/
def PppTrailerSerializer.deserialize (stream : MemoryInputStream) :
    PppTrailer × MemoryInputStream :=
  let (fcs, stream) := stream.readUint16Be
  ({ fcs := fcs }, stream)

/-- A PPP header with the usual flag, address and control, for protocol 0x0021. -/
def samplePppHeader : PppHeader :=
  { flag := 126, address := 255, control := 3, protocol := 33 }

/-- A PPP trailer with FCS 0xBEEF. -/
def samplePppTrailer : PppTrailer :=
  { fcs := 48879 }

end INET

/-! # Theorems -/

namespace INET

/-! ## Facts about `StdMap` -/

section StdMapFacts

variable {κ α : Type} [DecidableEq κ]

theorem StdMap.find_erase_self (k : κ) (m : StdMap κ α) :
    StdMap.find k (StdMap.erase k m) = none := by
  induction m with
  | nil => rfl
  | cons e m ih =>
    obtain ⟨k', v⟩ := e
    simp only [StdMap.erase]
    split_ifs with h
    · exact ih
    · simp [StdMap.find, h, ih]

theorem StdMap.find_erase_ne {j k : κ} (h : j ≠ k) (m : StdMap κ α) :
    StdMap.find j (StdMap.erase k m) = StdMap.find j m := by
  induction m with
  | nil => rfl
  | cons e m ih =>
    obtain ⟨k', v⟩ := e
    simp only [StdMap.erase, StdMap.find]
    split_ifs with h1 h2 h2
    · exact absurd (h2.symm.trans h1) h
    · exact ih
    · simp [StdMap.find, h2]
    · simp [StdMap.find, h2, ih]

theorem StdMap.find_modify_self (k : κ) (f : α → α) (m : StdMap κ α) :
    StdMap.find k (StdMap.modify k f m) = (StdMap.find k m).map f := by
  induction m with
  | nil => rfl
  | cons e m ih =>
    obtain ⟨k', v⟩ := e
    simp only [StdMap.modify, StdMap.find]
    split_ifs with h
    · simp [StdMap.find, h]
    · simp [StdMap.find, h, ih]

theorem StdMap.find_modify_ne {j k : κ} (h : j ≠ k) (f : α → α) (m : StdMap κ α) :
    StdMap.find j (StdMap.modify k f m) = StdMap.find j m := by
  induction m with
  | nil => rfl
  | cons e m ih =>
    obtain ⟨k', v⟩ := e
    simp only [StdMap.modify, StdMap.find]
    split_ifs with h1 h2 h2
    · exact absurd (h2.symm.trans h1) h
    · simp [StdMap.find, h2]
    · simp [StdMap.find, h2]
    · simp [StdMap.find, h2, ih]

variable [LT κ] [DecidableRel (fun (a b : κ) => a < b)]

theorem StdMap.find_assign_self (k : κ) (v : α) (m : StdMap κ α) :
    StdMap.find k (StdMap.assign k v m) = some v := by
  induction m with
  | nil => simp [StdMap.assign, StdMap.find]
  | cons e m ih =>
    obtain ⟨k', v'⟩ := e
    simp only [StdMap.assign]
    split_ifs with h1 h2
    · simp [StdMap.find]
    · simp [StdMap.find]
    · simp [StdMap.find, h1, ih]

theorem StdMap.find_assign_ne {j k : κ} (h : j ≠ k) (v : α) (m : StdMap κ α) :
    StdMap.find j (StdMap.assign k v m) = StdMap.find j m := by
  have hkj : ¬ k = j := fun e => h e.symm
  induction m with
  | nil => simp [StdMap.assign, StdMap.find, hkj]
  | cons e m ih =>
    obtain ⟨k', v'⟩ := e
    simp only [StdMap.assign]
    split_ifs with h1 h2
    · have hj : ¬ k' = j := fun e => h (e.symm.trans h1)
      simp [StdMap.find, hkj, hj]
    · simp [StdMap.find, hkj]
    · simp only [StdMap.find, ih]

theorem StdMap.length_assign_of_find_none (k : κ) (v : α) (m : StdMap κ α)
    (h : StdMap.find k m = none) : (StdMap.assign k v m).length = m.length + 1 := by
  induction m with
  | nil => simp [StdMap.assign]
  | cons e m ih =>
    obtain ⟨k', v'⟩ := e
    simp only [StdMap.find] at h
    split_ifs at h with hk
    simp only [StdMap.assign, hk, if_false]
    split_ifs with hlt
    · simp
    · simp [ih h]

end StdMapFacts

/-! ## Inbound segments with a declared-incorrect checksum -/

/-- C1: a segment whose checksum mode is declared-incorrect is discarded, whatever
the engine and the codec are: the call returns normally with the module state it
started from, so nothing is added to the trace (no `if_receive_packet`, no
notification, no outbound packet) and the registry, every engine handle and the
current-segment slot are unchanged, also for a segment with SYN and ACK set. -/
theorem handleIpInputMessage_declared_incorrect (env : Collaborators) (s : TCP_lwIP)
    (packet : Packet) (h : packet.header.crcMode = .CRC_DECLARED_INCORRECT) :
    handleIpInputMessage env s packet = .ok () s
    ∧ (handleIpInputMessage env s packet).state.trace = s.trace
    ∧ (handleIpInputMessage env s packet).state.tcpAppConnMapM = s.tcpAppConnMapM
    ∧ (handleIpInputMessage env s packet).state.pcbs = s.pcbs
    ∧ (handleIpInputMessage env s packet).state.pCurTcpSegM = s.pCurTcpSegM := by
  have key : handleIpInputMessage env s packet = .ok () s := by
    simp only [handleIpInputMessage, h]
  rw [key]
  exact ⟨rfl, rfl, rfl, rfl, rfl⟩

/-- C1 at a SYN+ACK segment that matches a registered connection. -/
theorem handleIpInputMessage_declared_incorrect_witness :
    (samplePacket .CRC_DECLARED_INCORRECT).header.crcMode = .CRC_DECLARED_INCORRECT
    ∧ (samplePacket .CRC_DECLARED_INCORRECT).header.synBit = true
    ∧ (samplePacket .CRC_DECLARED_INCORRECT).header.ackBit = true
    ∧ handleIpInputMessage sampleEnv sampleState (samplePacket .CRC_DECLARED_INCORRECT)
        = .ok () sampleState :=
  ⟨rfl, rfl, rfl,
   (handleIpInputMessage_declared_incorrect sampleEnv sampleState
      (samplePacket .CRC_DECLARED_INCORRECT) rfl).1⟩

/-! ## Engine events -/

theorem statusNotifications_append (id : Int) (a b : List Effect) :
    statusNotifications id (a ++ b) = statusNotifications id a ++ statusNotifications id b := by
  simp [statusNotifications]

/-- C2: a RECV event with a null payload, for a connection whose engine handle is
allocated, returns normally and sends exactly one status notification for that
connection: CLOSED when the handle is in state TIME_WAIT, PEER_CLOSED otherwise. It
is followed by `tcp_recved(pcb, 0)`, `sendUpData` and `do_SEND`. -/
theorem tcp_event_recv_null_payload (s : TCP_lwIP) (conn : TcpLwipConnection) (err : Int)
    (h : Nat) (pcb : tcp_pcb) (hpcb : conn.pcbM = some h)
    (hfind : StdMap.find h s.pcbs = some pcb) :
    tcp_event_recv s conn none err
      = .ok err { s with trace := s.trace ++
          [.indication conn.connIdM
              (if pcb.state = .TIME_WAIT then .TCP_I_CLOSED else .TCP_I_PEER_CLOSED),
           .tcp_recved (some h) 0, .sendUpData conn.connIdM, .do_SEND conn.connIdM] }
    ∧ statusNotifications conn.connIdM (tcp_event_recv s conn none err).state.trace
      = statusNotifications conn.connIdM s.trace ++
          [if pcb.state = .TIME_WAIT then .TCP_I_CLOSED else .TCP_I_PEER_CLOSED]
    ∧ (pcb.state = .TIME_WAIT →
        statusNotifications conn.connIdM (tcp_event_recv s conn none err).state.trace
          = statusNotifications conn.connIdM s.trace ++ [.TCP_I_CLOSED])
    ∧ (pcb.state ≠ .TIME_WAIT →
        statusNotifications conn.connIdM (tcp_event_recv s conn none err).state.trace
          = statusNotifications conn.connIdM s.trace ++ [.TCP_I_PEER_CLOSED]) := by
  have key : tcp_event_recv s conn none err
      = .ok err { s with trace := s.trace ++
          [.indication conn.connIdM
              (if pcb.state = .TIME_WAIT then .TCP_I_CLOSED else .TCP_I_PEER_CLOSED),
           .tcp_recved (some h) 0, .sendUpData conn.connIdM, .do_SEND conn.connIdM] } := by
    simp [tcp_event_recv, hpcb, hfind, sendIndicationToApp, TCP_lwIP.emit]
  have cnt : statusNotifications conn.connIdM (tcp_event_recv s conn none err).state.trace
      = statusNotifications conn.connIdM s.trace ++
          [if pcb.state = .TIME_WAIT then .TCP_I_CLOSED else .TCP_I_PEER_CLOSED] := by
    rw [key]
    simp [Result.state, statusNotifications, Effect.indicationFor]
  refine ⟨key, cnt, ?_, ?_⟩
  · intro ht
    rw [cnt, if_pos ht]
  · intro ht
    rw [cnt, if_neg ht]

/-- C2 at the connection in TIME_WAIT of the sample module. -/
theorem tcp_event_recv_null_payload_witness :
    sampleConn.pcbM = some 1
    ∧ StdMap.find 1 sampleState.pcbs = some (samplePcb .TIME_WAIT 9)
    ∧ statusNotifications 9 (tcp_event_recv sampleState sampleConn none ERR_OK).state.trace
        = [.TCP_I_CLOSED] :=
  ⟨rfl, rfl,
   (tcp_event_recv_null_payload sampleState sampleConn ERR_OK 1 (samplePcb .TIME_WAIT 9)
      rfl rfl).2.2.1 rfl⟩

theorem removeConnection_eq (s : TCP_lwIP) (conn : TcpLwipConnection) (h : Nat) (pcb : tcp_pcb)
    (hpcb : conn.pcbM = some h) (hfind : StdMap.find h s.pcbs = some pcb) :
    removeConnection s conn
      = .ok () { s with
          pcbs := StdMap.modify h (fun pcb => { pcb with callback_arg := none }) s.pcbs,
          tcpAppConnMapM := StdMap.erase conn.connIdM s.tcpAppConnMapM } := by
  simp [removeConnection, hpcb, hfind]

/-- C3: the ERR event is decided by the error code. For a connection whose engine
handle is allocated, ERR_ABRT sends exactly one status notification, CLOSED, and
ERR_RST exactly one, CONNECTION_RESET; in both cases the connection is then removed
from the registry and the code is returned. Every other code throws, with the
module state (trace and registry included) as it was. -/
theorem tcp_event_err_by_code (s : TCP_lwIP) (conn : TcpLwipConnection) (err : Int) :
    (∀ (h : Nat) (pcb : tcp_pcb), conn.pcbM = some h → StdMap.find h s.pcbs = some pcb →
      (err = ERR_ABRT →
        ∃ s2, tcp_event_err s conn err = .ok err s2
          ∧ s2.trace = s.trace ++ [.indication conn.connIdM .TCP_I_CLOSED]
          ∧ s2.tcpAppConnMapM = StdMap.erase conn.connIdM s.tcpAppConnMapM
          ∧ findAppConn s2 conn.connIdM = none)
      ∧ (err = ERR_RST →
        ∃ s2, tcp_event_err s conn err = .ok err s2
          ∧ s2.trace = s.trace ++ [.indication conn.connIdM .TCP_I_CONNECTION_RESET]
          ∧ s2.tcpAppConnMapM = StdMap.erase conn.connIdM s.tcpAppConnMapM
          ∧ findAppConn s2 conn.connIdM = none))
    ∧ (err ≠ ERR_ABRT → err ≠ ERR_RST →
        tcp_event_err s conn err = .thrown (.invalidLwipErrorCode err) s) := by
  refine ⟨?_, ?_⟩
  · intro h pcb hpcb hfind
    refine ⟨?_, ?_⟩
    · intro he
      have hf : StdMap.find h (sendIndicationToApp s conn .TCP_I_CLOSED).pcbs = some pcb := hfind
      have key : tcp_event_err s conn err
          = .ok err { sendIndicationToApp s conn .TCP_I_CLOSED with
              pcbs := StdMap.modify h (fun pcb => { pcb with callback_arg := none }) s.pcbs,
              tcpAppConnMapM := StdMap.erase conn.connIdM s.tcpAppConnMapM } := by
        simp only [tcp_event_err, he, if_true]
        rw [removeConnection_eq _ conn h pcb hpcb hf]
        rfl
      exact ⟨_, key, rfl, rfl, StdMap.find_erase_self _ _⟩
    · intro he
      have hne : ¬ err = ERR_ABRT := by rw [he]; decide
      have hf : StdMap.find h (sendIndicationToApp s conn .TCP_I_CONNECTION_RESET).pcbs
          = some pcb := hfind
      have key : tcp_event_err s conn err
          = .ok err { sendIndicationToApp s conn .TCP_I_CONNECTION_RESET with
              pcbs := StdMap.modify h (fun pcb => { pcb with callback_arg := none }) s.pcbs,
              tcpAppConnMapM := StdMap.erase conn.connIdM s.tcpAppConnMapM } := by
        simp only [tcp_event_err, hne, if_false]
        rw [if_pos he, removeConnection_eq _ conn h pcb hpcb hf]
        rfl
      exact ⟨_, key, rfl, rfl, StdMap.find_erase_self _ _⟩
  · intro h1 h2
    simp [tcp_event_err, h1, h2]

/-- C3 at the sample module: ERR_ABRT on the connection registered under 9, and
the code 0 that is neither ERR_ABRT nor ERR_RST. -/
theorem tcp_event_err_by_code_witness :
    (∃ s2, tcp_event_err sampleState sampleConn ERR_ABRT = .ok ERR_ABRT s2
      ∧ s2.trace = sampleState.trace ++ [.indication sampleConn.connIdM .TCP_I_CLOSED]
      ∧ s2.tcpAppConnMapM = StdMap.erase sampleConn.connIdM sampleState.tcpAppConnMapM
      ∧ findAppConn s2 sampleConn.connIdM = none)
    ∧ tcp_event_err sampleState sampleConn ERR_OK
        = .thrown (.invalidLwipErrorCode ERR_OK) sampleState :=
  ⟨((tcp_event_err_by_code sampleState sampleConn ERR_ABRT).1 1 (samplePcb .TIME_WAIT 9)
      rfl rfl).1 rfl,
   (tcp_event_err_by_code sampleState sampleConn ERR_OK).2 (by decide) (by decide)⟩

/-! ## The registry -/

/-- C4: after `removeConnection` on a connection whose engine handle is allocated,
the lookup of its identifier finds nothing, the handle that belonged to it has its
back-reference cleared (and is otherwise as before), and the lookup of every other
identifier gives what it gave before. -/
theorem removeConnection_lookup (s : TCP_lwIP) (conn : TcpLwipConnection) (h : Nat)
    (pcb : tcp_pcb) (hpcb : conn.pcbM = some h) (hfind : StdMap.find h s.pcbs = some pcb) :
    ∃ s2, removeConnection s conn = .ok () s2
      ∧ findAppConn s2 conn.connIdM = none
      ∧ StdMap.find h s2.pcbs = some { pcb with callback_arg := none }
      ∧ (∀ j, j ≠ conn.connIdM → findAppConn s2 j = findAppConn s j)
      ∧ s2.trace = s.trace := by
  refine ⟨_, removeConnection_eq s conn h pcb hpcb hfind, ?_, ?_, ?_, rfl⟩
  · exact StdMap.find_erase_self _ _
  · show StdMap.find h (StdMap.modify h _ s.pcbs) = _
    rw [StdMap.find_modify_self, hfind]
    rfl
  · intro j hj
    exact StdMap.find_erase_ne hj _

/-- C4 at the connection registered under 9 in the sample module. -/
theorem removeConnection_lookup_witness :
    findAppConn sampleState 9 = some sampleConn
    ∧ sampleConn.pcbM = some 1
    ∧ StdMap.find 1 sampleState.pcbs = some (samplePcb .TIME_WAIT 9)
    ∧ ∃ s2, removeConnection sampleState sampleConn = .ok () s2
      ∧ findAppConn s2 sampleConn.connIdM = none
      ∧ StdMap.find 1 s2.pcbs = some { samplePcb .TIME_WAIT 9 with callback_arg := none }
      ∧ (∀ j, j ≠ sampleConn.connIdM → findAppConn s2 j = findAppConn sampleState j)
      ∧ s2.trace = sampleState.trace :=
  ⟨rfl, rfl, rfl,
   removeConnection_lookup sampleState sampleConn 1 (samplePcb .TIME_WAIT 9) rfl rfl⟩

/-- C5, the claim fails: an ACCEPT event on the listening connection of the sample
module for which the environment returns 7, the identifier of the listening
connection itself, returns normally; the registry has as many entries as before,
none under an identifier that was unused, and the entry under 7 is the new
Connection on handle 2, so the listening connection is no longer registered. -/
theorem tcp_event_accept_reuses_identifier :
    findAppConn sampleState 7 = some sampleListener
    ∧ (tcp_event_accept sampleState 7 sampleListener 2 ERR_OK).isFatal = false
    ∧ (tcp_event_accept sampleState 7 sampleListener 2 ERR_OK).state.tcpAppConnMapM.length
        = sampleState.tcpAppConnMapM.length
    ∧ findAppConn (tcp_event_accept sampleState 7 sampleListener 2 ERR_OK).state 7
        = some { connIdM := 7, pcbM := some 2, dataTransferModeM := 1 }
    ∧ findAppConn (tcp_event_accept sampleState 7 sampleListener 2 ERR_OK).state
          sampleListener.connIdM
        ≠ some sampleListener
    ∧ (tcp_event_accept sampleState 7 sampleListener 2 ERR_OK).state.trace
        = [.available 7 7] := by
  refine ⟨rfl, rfl, rfl, rfl, ?_, rfl⟩
  decide

/-- C5 as amended: an ACCEPT event always returns normally; a new Connection bound
to the new engine handle is then registered under the identifier the environment
returned, every other identifier is registered as before, and exactly one effect
is added to the trace, an AVAILABLE notification addressed to the listening
connection that carries the new identifier. When that identifier was not in the
registry before, the registry has exactly one entry more, the identifier differs
from the one of a registered listening connection, and the listening connection
is still registered under its own identifier. -/
theorem tcp_event_accept_registers (s : TCP_lwIP) (uniqueNumber : Int)
    (conn : TcpLwipConnection) (pcb : Nat) (err : Int) :
    ∃ s2 newConn, tcp_event_accept s uniqueNumber conn pcb err = .ok err s2
      ∧ findAppConn s2 uniqueNumber = some newConn
      ∧ newConn.connIdM = uniqueNumber
      ∧ newConn.pcbM = some pcb
      ∧ (∀ j, j ≠ uniqueNumber → findAppConn s2 j = findAppConn s j)
      ∧ s2.trace = s.trace ++ [.available conn.connIdM uniqueNumber]
      ∧ (findAppConn s uniqueNumber = none →
          s2.tcpAppConnMapM.length = s.tcpAppConnMapM.length + 1
          ∧ (findAppConn s conn.connIdM = some conn →
              uniqueNumber ≠ conn.connIdM ∧ findAppConn s2 conn.connIdM = some conn)) := by
  refine ⟨_, (TcpLwipConnection.fromAccept s conn uniqueNumber pcb).1, rfl, ?_, rfl, rfl,
    ?_, rfl, ?_⟩
  · exact StdMap.find_assign_self _ _ _
  · intro j hj
    exact StdMap.find_assign_ne hj _ _
  · intro hfresh
    refine ⟨StdMap.length_assign_of_find_none _ _ _ hfresh, ?_⟩
    intro hreg
    have hne : uniqueNumber ≠ conn.connIdM := by
      intro e
      rw [e, hreg] at hfresh
      exact Option.noConfusion hfresh
    refine ⟨hne, ?_⟩
    have := StdMap.find_assign_ne (Ne.symm hne)
      (TcpLwipConnection.fromAccept s conn uniqueNumber pcb).1 s.tcpAppConnMapM
    exact this.trans hreg

/-- C5 as amended, at the listening connection of the sample module, with the
unused identifier 12 and the new handle 2. -/
theorem tcp_event_accept_registers_witness :
    findAppConn sampleState sampleListener.connIdM = some sampleListener
    ∧ findAppConn sampleState 12 = none
    ∧ ∃ s2 newConn, tcp_event_accept sampleState 12 sampleListener 2 ERR_OK = .ok ERR_OK s2
      ∧ findAppConn s2 12 = some newConn
      ∧ newConn.connIdM = 12
      ∧ newConn.pcbM = some 2
      ∧ (∀ j, j ≠ 12 → findAppConn s2 j = findAppConn sampleState j)
      ∧ s2.trace = sampleState.trace ++ [.available sampleListener.connIdM 12]
      ∧ s2.tcpAppConnMapM.length = sampleState.tcpAppConnMapM.length + 1
      ∧ (12 : Int) ≠ sampleListener.connIdM
      ∧ findAppConn s2 sampleListener.connIdM = some sampleListener := by
  obtain ⟨s2, newConn, h1, h2, h3, h4, h5, h6, h7⟩ :=
    tcp_event_accept_registers sampleState 12 sampleListener 2 ERR_OK
  obtain ⟨h8, h9⟩ := h7 rfl
  obtain ⟨h10, h11⟩ := h9 rfl
  exact ⟨rfl, rfl, s2, newConn, h1, h2, h3, h4, h5, h6, h8, h10, h11⟩

/-! ## Inbound segments handed to the engine -/

theorem fillLocalAddr_pCurTcpSegM (laddr raddr : L3Address) (lport rport : Nat) (s : TCP_lwIP) :
    (fillLocalAddr laddr raddr lport rport s).pCurTcpSegM = s.pCurTcpSegM := rfl

theorem fillLocalAddr_trace (laddr raddr : L3Address) (lport rport : Nat) (s : TCP_lwIP) :
    (fillLocalAddr laddr raddr lport rport s).trace = s.trace := rfl

/-- The call of the engine for a segment that is not dropped: `seg` is the
segment after the checksum-mode switch. -/
theorem handleIpInputMessage_dispatch (env : Collaborators) (s : TCP_lwIP) (packet seg : Packet)
    (hseg : seg = if packet.header.crcMode = .CRC_DECLARED_CORRECT
      then rewriteDeclaredCorrect packet else packet)
    (hmode : packet.header.crcMode ≠ .CRC_DECLARED_INCORRECT)
    (hhdr : env.sizeof_ip_hdr / 4 * 4 = env.sizeof_ip_hdr)
    (hslot : s.pCurTcpSegM = none) :
    handleIpInputMessage env s packet
      = afterEngine (env.if_receive_packet packet.interfaceId (buildIpBuffer env seg)
          (env.sizeof_ip_hdr + (buildIpBuffer env seg).tcp.length)
          (({ (if seg.header.synBit && seg.header.ackBit
                then fillLocalAddr packet.destAddress packet.srcAddress seg.header.destPort
                  seg.header.srcPort s
                else s) with pCurTcpSegM := some seg }).emit
            (.if_receive_packet packet.interfaceId (buildIpBuffer env seg)
              (env.sizeof_ip_hdr + (buildIpBuffer env seg).tcp.length) (some seg)))) := by
  by_cases hc : (seg.header.synBit && seg.header.ackBit) = true
  · unfold handleIpInputMessage
    cases hm : packet.header.crcMode
    case pos.CRC_DECLARED_INCORRECT => exact absurd hm hmode
    all_goals
      simp only [hm, reduceCtorEq, if_false, if_true] at hseg
      subst seg
      dsimp only
      rw [if_neg (not_not.mpr hhdr)]
      simp only [reduceCtorEq, if_false, if_true]
      simp only [if_pos hc]
      split_ifs with h1
      · exact absurd hslot h1
      · rfl
  · unfold handleIpInputMessage
    cases hm : packet.header.crcMode
    case neg.CRC_DECLARED_INCORRECT => exact absurd hm hmode
    all_goals
      simp only [hm, reduceCtorEq, if_false, if_true] at hseg
      subst seg
      dsimp only
      rw [if_neg (not_not.mpr hhdr)]
      simp only [reduceCtorEq, if_false, if_true]
      simp only [if_neg hc]
      split_ifs with h1
      · exact absurd hslot h1
      · rfl

/-- C6: when the IP header size is a multiple of 4 and the current-segment slot is
empty, a declared-correct segment reaches the engine rewritten: the segment in the
current-segment slot during the call, whose bytes the codec puts into the frame,
has checksum mode computed and checksum 0, and every other header field, the
payload and the tags of the segment that arrived. A segment that arrives in
computed mode reaches the engine as it arrived. -/
theorem handleIpInputMessage_segment_for_engine (env : Collaborators) (s : TCP_lwIP)
    (packet : Packet) (hhdr : env.sizeof_ip_hdr / 4 * 4 = env.sizeof_ip_hdr)
    (hslot : s.pCurTcpSegM = none) :
    (packet.header.crcMode = .CRC_DECLARED_CORRECT →
      ∃ seg s1,
        handleIpInputMessage env s packet
          = afterEngine (env.if_receive_packet packet.interfaceId (buildIpBuffer env seg)
              (env.sizeof_ip_hdr + (buildIpBuffer env seg).tcp.length) s1)
        ∧ s1.pCurTcpSegM = some seg
        ∧ s1.trace = s.trace ++ [.if_receive_packet packet.interfaceId (buildIpBuffer env seg)
            (env.sizeof_ip_hdr + (buildIpBuffer env seg).tcp.length) (some seg)]
        ∧ (buildIpBuffer env seg).tcp
            = env.copyToBuffer seg ((maxBufferSize + 2 ^ 64 - env.sizeof_ip_hdr) % 2 ^ 64)
        ∧ seg.header.crcMode = .CRC_COMPUTED
        ∧ seg.header.crc = 0
        ∧ seg.header = { packet.header with crcMode := .CRC_COMPUTED, crc := 0 }
        ∧ seg.payload = packet.payload
        ∧ seg.srcAddress = packet.srcAddress
        ∧ seg.destAddress = packet.destAddress
        ∧ seg.interfaceId = packet.interfaceId)
    ∧ (packet.header.crcMode = .CRC_COMPUTED →
      ∃ s1,
        handleIpInputMessage env s packet
          = afterEngine (env.if_receive_packet packet.interfaceId (buildIpBuffer env packet)
              (env.sizeof_ip_hdr + (buildIpBuffer env packet).tcp.length) s1)
        ∧ s1.pCurTcpSegM = some packet
        ∧ s1.trace = s.trace ++ [.if_receive_packet packet.interfaceId (buildIpBuffer env packet)
            (env.sizeof_ip_hdr + (buildIpBuffer env packet).tcp.length) (some packet)]
        ∧ (buildIpBuffer env packet).tcp
            = env.copyToBuffer packet ((maxBufferSize + 2 ^ 64 - env.sizeof_ip_hdr) % 2 ^ 64)) := by
  refine ⟨?_, ?_⟩
  · intro hm
    have hne : packet.header.crcMode ≠ .CRC_DECLARED_INCORRECT := by rw [hm]; decide
    have key := handleIpInputMessage_dispatch env s packet (rewriteDeclaredCorrect packet)
      (by rw [if_pos hm]) hne hhdr hslot
    refine ⟨rewriteDeclaredCorrect packet, _, key, rfl, ?_, rfl, rfl, rfl, rfl, rfl, rfl, rfl, rfl⟩
    show (if _ then fillLocalAddr _ _ _ _ s else s).trace ++ _ = _
    split_ifs <;> rfl
  · intro hm
    have hne : packet.header.crcMode ≠ .CRC_DECLARED_INCORRECT := by rw [hm]; decide
    have hnc : ¬ packet.header.crcMode = .CRC_DECLARED_CORRECT := by rw [hm]; decide
    have key := handleIpInputMessage_dispatch env s packet packet
      (by rw [if_neg hnc]) hne hhdr hslot
    refine ⟨_, key, rfl, ?_, rfl⟩
    show (if _ then fillLocalAddr _ _ _ _ s else s).trace ++ _ = _
    split_ifs <;> rfl

/-- C6 at a declared-correct segment with checksum 4660, in the sample module. -/
theorem handleIpInputMessage_segment_for_engine_witness :
    sampleEnv.sizeof_ip_hdr / 4 * 4 = sampleEnv.sizeof_ip_hdr
    ∧ sampleState.pCurTcpSegM = none
    ∧ (samplePacket .CRC_DECLARED_CORRECT).header.crcMode = .CRC_DECLARED_CORRECT
    ∧ (samplePacket .CRC_DECLARED_CORRECT).header.crc = 4660
    ∧ ∃ seg s1,
        handleIpInputMessage sampleEnv sampleState (samplePacket .CRC_DECLARED_CORRECT)
          = afterEngine (sampleEnv.if_receive_packet
              (samplePacket .CRC_DECLARED_CORRECT).interfaceId (buildIpBuffer sampleEnv seg)
              (sampleEnv.sizeof_ip_hdr + (buildIpBuffer sampleEnv seg).tcp.length) s1)
        ∧ s1.pCurTcpSegM = some seg
        ∧ s1.trace = sampleState.trace ++ [.if_receive_packet
            (samplePacket .CRC_DECLARED_CORRECT).interfaceId (buildIpBuffer sampleEnv seg)
            (sampleEnv.sizeof_ip_hdr + (buildIpBuffer sampleEnv seg).tcp.length) (some seg)]
        ∧ (buildIpBuffer sampleEnv seg).tcp
            = sampleEnv.copyToBuffer seg
                ((maxBufferSize + 2 ^ 64 - sampleEnv.sizeof_ip_hdr) % 2 ^ 64)
        ∧ seg.header.crcMode = .CRC_COMPUTED
        ∧ seg.header.crc = 0
        ∧ seg.header = { (samplePacket .CRC_DECLARED_CORRECT).header with
            crcMode := .CRC_COMPUTED, crc := 0 }
        ∧ seg.payload = (samplePacket .CRC_DECLARED_CORRECT).payload
        ∧ seg.srcAddress = (samplePacket .CRC_DECLARED_CORRECT).srcAddress
        ∧ seg.destAddress = (samplePacket .CRC_DECLARED_CORRECT).destAddress
        ∧ seg.interfaceId = (samplePacket .CRC_DECLARED_CORRECT).interfaceId :=
  ⟨by decide, rfl, rfl, rfl,
   (handleIpInputMessage_segment_for_engine sampleEnv sampleState
      (samplePacket .CRC_DECLARED_CORRECT) (by decide) rfl).1 rfl⟩

/-! ## Application commands -/

theorem processAppCommand_registry (s : TCP_lwIP) (connP : TcpLwipConnection) (msgP : cMessage) :
    (processAppCommand s connP msgP).state.tcpAppConnMapM = s.tcpAppConnMapM := by
  unfold processAppCommand process_OPEN_ACTIVE process_OPEN_PASSIVE process_ACCEPT process_SEND
    process_CLOSE process_ABORT process_STATUS
  repeat (first | rfl | split)

/-- C8: `process_OPEN_ACTIVE` throws exactly when the remote address is unspecified
or the remote port is -1. When it throws, the module state is as before, so
`connect` is not invoked; otherwise it returns normally after exactly one effect,
`connect` on the connection with the local address, remote address and remote
port of the command, and with local port 0 if the command says -1 and the local
port of the command otherwise. -/
theorem process_OPEN_ACTIVE_spec (s : TCP_lwIP) (connP : TcpLwipConnection)
    (tcpCommandP : TCPOpenCommand) (msgP : cMessage) :
    ((process_OPEN_ACTIVE s connP tcpCommandP msgP).isFatal = true
        ↔ (tcpCommandP.remoteAddr.isUnspecified = true ∨ tcpCommandP.remotePort = -1))
    ∧ ((tcpCommandP.remoteAddr.isUnspecified = true ∨ tcpCommandP.remotePort = -1) →
        process_OPEN_ACTIVE s connP tcpCommandP msgP = .thrown .openActiveUnspecified s)
    ∧ (¬ (tcpCommandP.remoteAddr.isUnspecified = true ∨ tcpCommandP.remotePort = -1) →
        process_OPEN_ACTIVE s connP tcpCommandP msgP
          = .ok () { s with trace := s.trace ++
              [.connect connP.connIdM tcpCommandP.localAddr
                (if tcpCommandP.localPort = -1 then 0 else tcpCommandP.localPort)
                tcpCommandP.remoteAddr tcpCommandP.remotePort] }) := by
  by_cases h : tcpCommandP.remoteAddr.isUnspecified = true ∨ tcpCommandP.remotePort = -1
  · have key : process_OPEN_ACTIVE s connP tcpCommandP msgP = .thrown .openActiveUnspecified s := by
      simp only [process_OPEN_ACTIVE, if_pos h]
    refine ⟨?_, fun _ => key, fun hn => absurd h hn⟩
    rw [key]
    exact ⟨fun _ => h, fun _ => rfl⟩
  · have key : process_OPEN_ACTIVE s connP tcpCommandP msgP
          = .ok () { s with trace := s.trace ++
              [.connect connP.connIdM tcpCommandP.localAddr
                (if tcpCommandP.localPort = -1 then 0 else tcpCommandP.localPort)
                tcpCommandP.remoteAddr tcpCommandP.remotePort] } := by
      simp only [process_OPEN_ACTIVE, if_neg h]
      rfl
    refine ⟨?_, fun hp => absurd hp h, fun _ => key⟩
    rw [key]
    constructor
    · intro hf
      exact absurd hf (by simp [Result.isFatal])
    · intro hp
      exact absurd hp h

/-- C8 at an open command for 10.0.0.2:80 with unspecified local port: `connect`
is invoked with local port 0. -/
theorem process_OPEN_ACTIVE_spec_witness :
    ¬ (sampleOpenCommand.remoteAddr.isUnspecified = true ∨ sampleOpenCommand.remotePort = -1)
    ∧ process_OPEN_ACTIVE sampleState sampleConn sampleOpenCommand sampleOpenActive
        = .ok () { sampleState with trace := sampleState.trace ++
            [.connect sampleConn.connIdM sampleOpenCommand.localAddr
              (if sampleOpenCommand.localPort = -1 then 0 else sampleOpenCommand.localPort)
              sampleOpenCommand.remoteAddr sampleOpenCommand.remotePort] }
    ∧ (if sampleOpenCommand.localPort = -1 then 0 else sampleOpenCommand.localPort) = 0 :=
  ⟨by decide,
   (process_OPEN_ACTIVE_spec sampleState sampleConn sampleOpenCommand sampleOpenActive).2.2
      (by decide),
   by decide⟩

/-- C9: `process_OPEN_PASSIVE` throws for every command whose local port is -1,
with the module state as before, so `listen` is not invoked; for a command with
fork set and a local port other than -1 it returns normally after exactly one
effect, `listen` on the connection with the local address and local port of the
command. -/
theorem process_OPEN_PASSIVE_spec (s : TCP_lwIP) (connP : TcpLwipConnection)
    (tcpCommandP : TCPOpenCommand) (msgP : cMessage) :
    (tcpCommandP.localPort = -1 →
        ∃ f, process_OPEN_PASSIVE s connP tcpCommandP msgP = .thrown f s)
    ∧ (tcpCommandP.fork = true → tcpCommandP.localPort = -1 →
        process_OPEN_PASSIVE s connP tcpCommandP msgP = .thrown .openPassiveUnspecified s)
    ∧ (tcpCommandP.fork = true → tcpCommandP.localPort ≠ -1 →
        process_OPEN_PASSIVE s connP tcpCommandP msgP
          = .ok () { s with trace := s.trace ++
              [.listen connP.connIdM tcpCommandP.localAddr tcpCommandP.localPort] }) := by
  refine ⟨?_, ?_, ?_⟩
  · intro hp
    by_cases hf : tcpCommandP.fork = true
    · exact ⟨.openPassiveUnspecified, by simp [process_OPEN_PASSIVE, hf, hp]⟩
    · exact ⟨.assertFailed, by simp [process_OPEN_PASSIVE, hf]⟩
  · intro hf hp
    simp [process_OPEN_PASSIVE, hf, hp]
  · intro hf hp
    simp [process_OPEN_PASSIVE, hf, hp, TCP_lwIP.emit]

/-- C9 at a command with fork set and local port 8080, and at the same command
with the local port unspecified. -/
theorem process_OPEN_PASSIVE_spec_witness :
    sampleListenCommand.fork = true
    ∧ sampleListenCommand.localPort ≠ -1
    ∧ process_OPEN_PASSIVE sampleState sampleListener sampleListenCommand sampleOpenActive
        = .ok () { sampleState with trace := sampleState.trace ++
            [.listen sampleListener.connIdM sampleListenCommand.localAddr
              sampleListenCommand.localPort] }
    ∧ process_OPEN_PASSIVE sampleState sampleListener
          { sampleListenCommand with localPort := -1 } sampleOpenActive
        = .thrown .openPassiveUnspecified sampleState :=
  ⟨rfl, by decide,
   (process_OPEN_PASSIVE_spec sampleState sampleListener sampleListenCommand
      sampleOpenActive).2.2 rfl (by decide),
   (process_OPEN_PASSIVE_spec sampleState sampleListener
      { sampleListenCommand with localPort := -1 } sampleOpenActive).2.1 rfl rfl⟩

/-- C10: `processAppCommand` dispatches by the kind of the message. For each of
the seven command kinds, a message carrying what that kind requires (the open or
accept command, a `TCPCommand`, or a packet) is handled by the one handler of
that kind, which invokes the one connection operation `connect`, `listen`,
`accept`, `send`, `close`, `abort` or the status reply. For every other kind the
call throws with the module state as before, so no connection operation is
invoked; the fault is "Wrong command from app" unless the control info is not a
`TCPCommand`. -/
theorem processAppCommand_dispatch (s : TCP_lwIP) (connP : TcpLwipConnection) (msgP : cMessage) :
    (msgP.kind = TCP_C_OPEN_ACTIVE → ∀ c, msgP.controlInfo = some (.openCommand c) →
        processAppCommand s connP msgP = process_OPEN_ACTIVE s connP c msgP)
    ∧ (msgP.kind = TCP_C_OPEN_PASSIVE → ∀ c, msgP.controlInfo = some (.openCommand c) →
        processAppCommand s connP msgP = process_OPEN_PASSIVE s connP c msgP)
    ∧ (msgP.kind = TCP_C_ACCEPT → msgP.controlInfo = some .acceptCommand →
        processAppCommand s connP msgP = process_ACCEPT s connP msgP
        ∧ processAppCommand s connP msgP = .ok () (s.emit (.accept connP.connIdM)))
    ∧ (msgP.kind = TCP_C_SEND → msgP.controlInfo ≠ some .other →
        ∀ pk, msgP.asPacket = some pk →
        processAppCommand s connP msgP = process_SEND s connP pk
        ∧ processAppCommand s connP msgP = .ok () (s.emit (.send connP.connIdM pk)))
    ∧ (msgP.kind = TCP_C_CLOSE → msgP.hasTCPCommand = true →
        processAppCommand s connP msgP = process_CLOSE s connP msgP
        ∧ processAppCommand s connP msgP = .ok () (s.emit (.close connP.connIdM)))
    ∧ (msgP.kind = TCP_C_ABORT → msgP.hasTCPCommand = true →
        processAppCommand s connP msgP = process_ABORT s connP msgP
        ∧ processAppCommand s connP msgP = .ok () (s.emit (.abort connP.connIdM)))
    ∧ (msgP.kind = TCP_C_STATUS → msgP.hasTCPCommand = true →
        processAppCommand s connP msgP = process_STATUS s connP msgP
        ∧ processAppCommand s connP msgP = .ok () (s.emit (.status connP.connIdM)))
    ∧ (isCommandKind msgP.kind = false →
        (∃ f, processAppCommand s connP msgP = .thrown f s)
        ∧ (msgP.controlInfo ≠ some .other →
            processAppCommand s connP msgP = .thrown (.wrongCommand msgP.kind) s)) := by
  obtain ⟨kind, socketId, controlInfo, asPacket⟩ := msgP
  refine ⟨?_, ?_, ?_, ?_, ?_, ?_, ?_, ?_⟩
  · intro hk c hc
    simp only at hk hc
    subst hk hc
    simp [processAppCommand]
  · intro hk c hc
    simp only at hk hc
    subst hk hc
    simp [processAppCommand, TCP_C_OPEN_PASSIVE, TCP_C_OPEN_ACTIVE]
  · intro hk hc
    simp only at hk hc
    subst hk hc
    simp [processAppCommand, process_ACCEPT, TCP_C_OPEN_PASSIVE, TCP_C_OPEN_ACTIVE, TCP_C_ACCEPT]
  · intro hk hc pk hp
    simp only at hk hc hp
    subst hk hp
    rcases controlInfo with _ | ci
    · simp [processAppCommand, process_SEND, TCP_C_OPEN_PASSIVE, TCP_C_OPEN_ACTIVE, TCP_C_ACCEPT,
        TCP_C_SEND]
    · cases ci <;>
        simp_all [processAppCommand, process_SEND, TCP_C_OPEN_PASSIVE, TCP_C_OPEN_ACTIVE,
          TCP_C_ACCEPT, TCP_C_SEND]
  · intro hk hc
    simp only at hk
    subst hk
    rcases controlInfo with _ | ci
    · simp [cMessage.hasTCPCommand] at hc
    · cases ci <;>
        simp_all [cMessage.hasTCPCommand, processAppCommand, process_CLOSE, TCP_C_OPEN_PASSIVE,
          TCP_C_OPEN_ACTIVE, TCP_C_ACCEPT, TCP_C_SEND, TCP_C_CLOSE]
  · intro hk hc
    simp only at hk
    subst hk
    rcases controlInfo with _ | ci
    · simp [cMessage.hasTCPCommand] at hc
    · cases ci <;>
        simp_all [cMessage.hasTCPCommand, processAppCommand, process_ABORT, TCP_C_OPEN_PASSIVE,
          TCP_C_OPEN_ACTIVE, TCP_C_ACCEPT, TCP_C_SEND, TCP_C_CLOSE, TCP_C_ABORT]
  · intro hk hc
    simp only at hk
    subst hk
    rcases controlInfo with _ | ci
    · simp [cMessage.hasTCPCommand] at hc
    · cases ci <;>
        simp_all [cMessage.hasTCPCommand, processAppCommand, process_STATUS, TCP_C_OPEN_PASSIVE,
          TCP_C_OPEN_ACTIVE, TCP_C_ACCEPT, TCP_C_SEND, TCP_C_CLOSE, TCP_C_ABORT, TCP_C_STATUS]
  · intro hk
    simp only [isCommandKind, decide_eq_false_iff_not, not_or] at hk
    obtain ⟨h1, h2, h3, h4, h5, h6, h7⟩ := hk
    rcases controlInfo with _ | ci
    · simp [processAppCommand, h1, h2, h3, h4, h5, h6, h7]
    · cases ci <;> simp [processAppCommand, h1, h2, h3, h4, h5, h6, h7]

/-- C10 at a CLOSE message, which is handled by `close`, and at a message of
kind 8, which is fatal. -/
theorem processAppCommand_dispatch_witness :
    sampleClose.kind = TCP_C_CLOSE
    ∧ sampleClose.hasTCPCommand = true
    ∧ processAppCommand sampleState sampleConn sampleClose
        = .ok () (sampleState.emit (.close sampleConn.connIdM))
    ∧ isCommandKind sampleUnknownKind.kind = false
    ∧ processAppCommand sampleState sampleConn sampleUnknownKind
        = .thrown (.wrongCommand sampleUnknownKind.kind) sampleState :=
  ⟨rfl, rfl,
   ((processAppCommand_dispatch sampleState sampleConn sampleClose).2.2.2.2.1 rfl rfl).2,
   by decide,
   ((processAppCommand_dispatch sampleState sampleConn sampleUnknownKind).2.2.2.2.2.2.2
      (by decide)).2 (by decide)⟩

/-- C12: a CONNECTED event whose handle is the handle of the connection returns
normally with the error value it was given, after exactly two effects: one
ESTABLISHED notification for the identifier of the connection, then the flush of
its send queue, `do_SEND`, as the last one. -/
theorem lwip_tcp_event_connected (s : TCP_lwIP) (uniqueNumber : Int) (conn : TcpLwipConnection)
    (pcb : Option Nat) (p : Option pbuf) (size : Nat) (err : Int) (hpcb : conn.pcbM = pcb) :
    lwip_tcp_event s uniqueNumber (some conn) pcb .LWIP_EVENT_CONNECTED p size err
      = .ok err { s with trace := s.trace ++
          [.established conn.connIdM, .do_SEND conn.connIdM] }
    ∧ tcp_event_conn s conn err
      = .ok err { s with trace := s.trace ++
          [.established conn.connIdM, .do_SEND conn.connIdM] }
    ∧ ((lwip_tcp_event s uniqueNumber (some conn) pcb .LWIP_EVENT_CONNECTED p size err).state.trace.filter
          (fun e => decide (e = .established conn.connIdM))).length
        = (s.trace.filter (fun e => decide (e = .established conn.connIdM))).length + 1
    ∧ (lwip_tcp_event s uniqueNumber (some conn) pcb .LWIP_EVENT_CONNECTED p size err).state.trace.getLast?
        = some (.do_SEND conn.connIdM) := by
  have hconn : tcp_event_conn s conn err
      = .ok err { s with trace := s.trace ++
          [.established conn.connIdM, .do_SEND conn.connIdM] } := by
    simp [tcp_event_conn, sendEstablishedMsg, TCP_lwIP.emit]
  have key : lwip_tcp_event s uniqueNumber (some conn) pcb .LWIP_EVENT_CONNECTED p size err
      = .ok err { s with trace := s.trace ++
          [.established conn.connIdM, .do_SEND conn.connIdM] } := by
    simp only [lwip_tcp_event, ne_eq, hpcb, not_true_eq_false, if_false]
    exact hconn
  refine ⟨key, hconn, ?_, ?_⟩
  · rw [key]
    simp [Result.state, List.filter_append, List.filter_cons]
  · rw [key]
    simp [Result.state]

/-- C12 at the connection registered under 9 in the sample module, on its own
handle 1. -/
theorem lwip_tcp_event_connected_witness :
    sampleConn.pcbM = some 1
    ∧ lwip_tcp_event sampleState 0 (some sampleConn) (some 1) .LWIP_EVENT_CONNECTED none 0 ERR_OK
        = .ok ERR_OK { sampleState with trace := sampleState.trace ++
            [.established sampleConn.connIdM, .do_SEND sampleConn.connIdM] } :=
  ⟨rfl, (lwip_tcp_event_connected sampleState 0 sampleConn (some 1) none 0 ERR_OK rfl).1⟩

/-- C13: a POLL event is honoured only on the connection's own handle. When the
handle of the event differs from the handle of the connection, the call returns
the error value it was given with the module state as it was (no flush, no
notification, no registry change); when it is the same, the send queue is
flushed and ERR_OK is returned. -/
theorem lwip_tcp_event_poll (s : TCP_lwIP) (uniqueNumber : Int) (conn : TcpLwipConnection)
    (pcb : Option Nat) (p : Option pbuf) (size : Nat) (err : Int) :
    (conn.pcbM ≠ pcb →
      lwip_tcp_event s uniqueNumber (some conn) pcb .LWIP_EVENT_POLL p size err = .ok err s)
    ∧ (conn.pcbM = pcb →
      lwip_tcp_event s uniqueNumber (some conn) pcb .LWIP_EVENT_POLL p size err
        = .ok ERR_OK { s with trace := s.trace ++ [.do_SEND conn.connIdM] }) := by
  refine ⟨?_, ?_⟩
  · intro h
    simp only [lwip_tcp_event, if_neg h]
  · intro h
    simp only [lwip_tcp_event, if_pos h]
    rfl

/-- C13 at the listening connection of the sample module: a POLL event on the
handle 2 of a connection being accepted, and one on its own handle 0. -/
theorem lwip_tcp_event_poll_witness :
    sampleListener.pcbM ≠ some 2
    ∧ lwip_tcp_event sampleState 0 (some sampleListener) (some 2) .LWIP_EVENT_POLL none 0 ERR_ABRT
        = .ok ERR_ABRT sampleState
    ∧ lwip_tcp_event sampleState 0 (some sampleListener) (some 0) .LWIP_EVENT_POLL none 0 ERR_ABRT
        = .ok ERR_OK { sampleState with trace := sampleState.trace ++
            [.do_SEND sampleListener.connIdM] } :=
  ⟨by decide,
   (lwip_tcp_event_poll sampleState 0 sampleListener (some 2) none 0 ERR_ABRT).1 (by decide),
   (lwip_tcp_event_poll sampleState 0 sampleListener (some 0) none 0 ERR_ABRT).2 rfl⟩

/-! ## Identifier collisions -/

theorem handleAppMessage_registry (s : TCP_lwIP) (msgP : cMessage) :
    (handleAppMessage s msgP).state.tcpAppConnMapM = s.tcpAppConnMapM
    ∨ (findAppConn s msgP.socketId = none
        ∧ ∃ conn, (handleAppMessage s msgP).state.tcpAppConnMapM
            = StdMap.assign msgP.socketId conn s.tcpAppConnMapM) := by
  cases hf : findAppConn s msgP.socketId with
  | some conn =>
    left
    have key : handleAppMessage s msgP = processAppCommand s conn msgP := by
      simp only [handleAppMessage, hf]
    rw [key]
    exact processAppCommand_registry s conn msgP
  | none =>
    obtain ⟨kind, socketId, controlInfo, asPacket⟩ := msgP
    simp only at hf
    rcases controlInfo with _ | ci
    · left
      simp [handleAppMessage, hf, Result.state]
    · cases ci with
      | openCommand c =>
        right
        refine ⟨rfl, (TcpLwipConnection.fromOpen s socketId c.dataTransferMode).1, ?_⟩
        simp only [handleAppMessage, hf]
        exact processAppCommand_registry _ _ _
      | acceptCommand => left; simp [handleAppMessage, hf, Result.state]
      | command => left; simp [handleAppMessage, hf, Result.state]
      | other => left; simp [handleAppMessage, hf, Result.state]

/-- C14, the claim fails: an ACCEPT event whose identifier from the environment is
9, already registered in the sample module, returns normally, and the entry under
9 is then the new Connection on handle 2 in place of the one registered before. -/
theorem tcp_event_accept_collision_replaces :
    findAppConn sampleState 9 = some sampleConn
    ∧ (tcp_event_accept sampleState 9 sampleListener 2 ERR_OK).isFatal = false
    ∧ findAppConn (tcp_event_accept sampleState 9 sampleListener 2 ERR_OK).state 9
        = some { connIdM := 9, pcbM := some 2, dataTransferModeM := 1 }
    ∧ findAppConn (tcp_event_accept sampleState 9 sampleListener 2 ERR_OK).state 9
        ≠ findAppConn sampleState 9
    ∧ (tcp_event_accept sampleState 9 sampleListener 2 ERR_OK).state.tcpAppConnMapM.length
        = sampleState.tcpAppConnMapM.length := by
  refine ⟨rfl, rfl, rfl, ?_, rfl⟩
  decide

/-- C14 as amended: no registration path raises an error on an identifier
collision. The open-command path never replaces an entry: every identifier
registered before `handleAppMessage` is registered to the same Connection after
it. The ACCEPT path always returns normally and stores the new Connection under
the identifier from the environment, whatever was registered under it; every
other identifier keeps its entry, so no entry is replaced when that identifier
is not in the registry. -/
theorem registration_without_collision_check (s : TCP_lwIP) :
    (∀ (msgP : cMessage) (j : Int) (c : TcpLwipConnection), findAppConn s j = some c →
        findAppConn (handleAppMessage s msgP).state j = some c)
    ∧ (∀ (uniqueNumber : Int) (conn : TcpLwipConnection) (pcb : Nat) (err : Int),
        ∃ s2 newConn, tcp_event_accept s uniqueNumber conn pcb err = .ok err s2
          ∧ newConn.connIdM = uniqueNumber
          ∧ newConn.pcbM = some pcb
          ∧ findAppConn s2 uniqueNumber = some newConn
          ∧ (∀ j, j ≠ uniqueNumber → findAppConn s2 j = findAppConn s j)
          ∧ (findAppConn s uniqueNumber = none →
              ∀ j c, findAppConn s j = some c → findAppConn s2 j = some c)) := by
  refine ⟨?_, ?_⟩
  · intro msgP j c hj
    rcases handleAppMessage_registry s msgP with h | ⟨hn, conn, h⟩
    · unfold findAppConn
      rw [h]
      exact hj
    · have hne : j ≠ msgP.socketId := by
        intro e
        rw [e, hn] at hj
        exact Option.noConfusion hj
      unfold findAppConn
      rw [h, StdMap.find_assign_ne hne]
      exact hj
  · intro uniqueNumber conn pcb err
    refine ⟨_, (TcpLwipConnection.fromAccept s conn uniqueNumber pcb).1, rfl, rfl, rfl, ?_, ?_, ?_⟩
    · exact StdMap.find_assign_self _ _ _
    · intro j hj
      exact StdMap.find_assign_ne hj _ _
    · intro hn j c hj
      have hne : j ≠ uniqueNumber := by
        intro e
        rw [e, hn] at hj
        exact Option.noConfusion hj
      exact (StdMap.find_assign_ne hne _ _).trans hj

/-- C14 as amended, at the sample module: an open command for the registered
identifier 9 leaves its entry, and an ACCEPT event with the unused identifier 12
keeps the entry of 9. -/
theorem registration_without_collision_check_witness :
    findAppConn sampleState 9 = some sampleConn
    ∧ findAppConn (handleAppMessage sampleState { sampleOpenActive with socketId := 9 }).state 9
        = some sampleConn
    ∧ ∃ s2 newConn, tcp_event_accept sampleState 12 sampleListener 2 ERR_OK = .ok ERR_OK s2
        ∧ newConn.connIdM = 12
        ∧ newConn.pcbM = some 2
        ∧ findAppConn s2 12 = some newConn
        ∧ (∀ j, j ≠ 12 → findAppConn s2 j = findAppConn sampleState j)
        ∧ (findAppConn sampleState 12 = none →
            ∀ j c, findAppConn sampleState j = some c → findAppConn s2 j = some c) :=
  ⟨rfl,
   (registration_without_collision_check sampleState).1 { sampleOpenActive with socketId := 9 }
      9 sampleConn rfl,
   (registration_without_collision_check sampleState).2 12 sampleListener 2 ERR_OK⟩

/-! ## The time grid of the maintenance timer -/

theorem roundTime_eq (scale t n : Int) (hpos : 0 < scale) (hn : 0 < n) (hdvd : n ∣ scale)
    (ht : 0 ≤ t) :
    0 < scale / n ∧ roundTime scale t n = some (t / (scale / n) * (scale / n)) := by
  have hd : 0 < scale / n := by
    obtain ⟨c, hc⟩ := hdvd
    have hc0 : 0 < c := by
      by_contra hcon
      have : c ≤ 0 := not_lt.mp hcon
      have : n * c ≤ 0 := Int.mul_nonpos_of_nonneg_of_nonpos hn.le this
      omega
    rw [hc, Int.mul_ediv_cancel_left _ hn.ne']
    exact hc0
  refine ⟨hd, ?_⟩
  have e1 : Int.tdiv scale n = scale / n := Int.tdiv_eq_ediv hpos.le hn.le
  have e2 : Int.tdiv t (scale / n) = t / (scale / n) := Int.tdiv_eq_ediv ht hd.le
  simp only [roundTime, hn.ne', if_false, e1, hd.ne', e2]

theorem simTimeAdd_of_le (a b : Int) (hlo : 0 ≤ a + b) (hhi : a + b ≤ maxSimTime) :
    simTimeAdd a b = some (a + b) := by
  have h : ¬ (a + b > maxSimTime ∨ a + b < -(2 ^ 63)) := by
    rintro (h | h)
    · exact absurd hhi (not_le.mpr h)
    · have : (0 : Int) ≤ 2 ^ 63 := by decide
      omega
  simp only [simTimeAdd, if_neg h]

theorem simTimeAdd_of_gt (a b : Int) (hhi : maxSimTime < a + b) : simTimeAdd a b = none := by
  simp only [simTimeAdd, if_pos (Or.inl hhi)]

/-- C16, the claim fails. At picosecond resolution (ticks per second divisible by
4) and the time 9223372036854775000, which is not negative and is a simulation
time, the sum with a quarter second does not fit the 64-bit tick count: no arm
time is computed and the arming of the timer ends in an overflow error. And with
1000 ticks per second, `roundTime(., 3)` of the time 1000, one second, is 999,
which is not a multiple of a third of a second, although one second is. -/
theorem fastTimerArmTime_overflow_and_uneven_slices :
    (0 : Int) < 1000000000000
    ∧ (4 : Int) ∣ 1000000000000
    ∧ (0 : Int) ≤ 9223372036854775000
    ∧ (9223372036854775000 : Int) ≤ maxSimTime
    ∧ fastTimerArmTime 1000000000000 9223372036854775000 = none
    ∧ armFastTimer 1000000000000 9223372036854775000 sampleState
        = .thrown .simTimeOverflow sampleState
    ∧ (4 : Int) ∣ 1000
    ∧ roundTime 1000 1000 3 = some 999
    ∧ ¬ ((1000 : Int) ∣ 3 * 999)
    ∧ (1000 : Int) ∣ 3 * 1000 := by
  refine ⟨by decide, by decide, by decide, by decide, by decide, by decide, by decide,
    by decide, by decide, by decide⟩

/-- C16 as amended: with a positive number of clock ticks per second that is
divisible by 4, and a current time `t` that is not negative, when `t` plus a
quarter second fits the 64-bit tick count of a simulation time, the time at
which the fast timer is armed, `roundTime(t + 0.25 s, 4)`, is an exact multiple of
a quarter second, is later than `t` and at most a quarter second later, and is
exactly a quarter second later when `t` is itself a multiple of a quarter
second; when the sum does not fit, no arm time is computed. For every positive
`n` that divides the ticks per second, `roundTime(., n)` of a time that is not
negative is the greatest multiple of `1/n` second not above it, and rounding the
result again gives the same time. -/
theorem fastTimerArmTime_grid (scale t : Int) (hpos : 0 < scale) (h4 : 4 ∣ scale)
    (ht : 0 ≤ t) :
    (t + scale / 4 ≤ maxSimTime →
      ∃ r, fastTimerArmTime scale t = some r
        ∧ (scale / 4) ∣ r
        ∧ t < r
        ∧ r ≤ t + scale / 4
        ∧ ((scale / 4) ∣ t → r = t + scale / 4))
    ∧ (maxSimTime < t + scale / 4 → fastTimerArmTime scale t = none)
    ∧ (∀ n : Int, 0 < n → n ∣ scale →
        ∃ q, roundTime scale t n = some q
          ∧ (scale / n) ∣ q
          ∧ q ≤ t
          ∧ t < q + scale / n
          ∧ roundTime scale q n = some q) := by
  have hq : quarterSecond scale = scale / 4 := Int.tdiv_eq_ediv hpos.le (by decide)
  have hd4 : 0 < scale / 4 := (roundTime_eq scale t 4 hpos (by decide) h4 ht).1
  refine ⟨?_, ?_, ?_⟩
  · intro hrep
    obtain ⟨hd, hr⟩ := roundTime_eq scale (t + scale / 4) 4 hpos (by decide) h4 (by omega)
    have hsplit : (t + scale / 4) / (scale / 4) = t / (scale / 4) + 1 :=
      Int.add_ediv_of_dvd_right (dvd_refl _) |>.trans (by rw [Int.ediv_self hd.ne'])
    have hle : t / (scale / 4) * (scale / 4) ≤ t := Int.ediv_mul_le t hd.ne'
    have hlt : t < (t / (scale / 4) + 1) * (scale / 4) := Int.lt_ediv_add_one_mul_self t hd
    refine ⟨(t / (scale / 4) + 1) * (scale / 4), ?_, ?_, hlt, ?_, ?_⟩
    · simp only [fastTimerArmTime, hq, simTimeAdd_of_le t (scale / 4) (by omega) hrep, hr,
        hsplit]
    · exact Dvd.intro_left _ rfl
    · rw [add_mul, one_mul]
      omega
    · intro hdt
      rw [add_mul, one_mul, Int.ediv_mul_cancel hdt]
  · intro hov
    simp only [fastTimerArmTime, hq, simTimeAdd_of_gt t (scale / 4) hov]
  · intro n hn hdvd
    obtain ⟨hd, hr⟩ := roundTime_eq scale t n hpos hn hdvd ht
    have hle : t / (scale / n) * (scale / n) ≤ t := Int.ediv_mul_le t hd.ne'
    have hlt : t < (t / (scale / n) + 1) * (scale / n) := Int.lt_ediv_add_one_mul_self t hd
    have hq0 : 0 ≤ t / (scale / n) * (scale / n) :=
      Int.mul_nonneg (Int.ediv_nonneg ht hd.le) hd.le
    refine ⟨_, hr, Dvd.intro_left _ rfl, hle, ?_, ?_⟩
    · rw [add_mul, one_mul] at hlt
      exact hlt
    · rw [(roundTime_eq scale _ n hpos hn hdvd hq0).2, Int.mul_ediv_cancel _ hd.ne']

/-- C16 as amended, at picosecond resolution, 0.3 s after the start: the fast
timer is armed for 0.5 s. -/
theorem fastTimerArmTime_grid_witness :
    (0 : Int) < 1000000000000
    ∧ (4 : Int) ∣ 1000000000000
    ∧ (0 : Int) ≤ 300000000000
    ∧ (300000000000 : Int) + 1000000000000 / 4 ≤ maxSimTime
    ∧ fastTimerArmTime 1000000000000 300000000000 = some 500000000000
    ∧ ∃ r, fastTimerArmTime 1000000000000 300000000000 = some r
      ∧ ((1000000000000 : Int) / 4) ∣ r
      ∧ 300000000000 < r
      ∧ r ≤ 300000000000 + 1000000000000 / 4
      ∧ (((1000000000000 : Int) / 4) ∣ 300000000000 → r = 300000000000 + 1000000000000 / 4) :=
  ⟨by decide, by decide, by decide, by decide, by decide,
   (fastTimerArmTime_grid 1000000000000 300000000000 (by decide) (by decide) (by decide)).1
     (by decide)⟩

theorem slowTickDue_eq (scale now : Int) (hpos : 0 < scale) (h2 : 2 ∣ scale) (hnow : 0 ≤ now) :
    slowTickDue scale now = some (decide ((scale / 2) ∣ now)) := by
  obtain ⟨hd, hr⟩ := roundTime_eq scale now 2 hpos (by decide) h2 hnow
  simp only [slowTickDue, hr, Option.map_some', Option.some.injEq, decide_eq_decide]
  constructor
  · intro h
    exact Dvd.intro_left _ h.symm
  · intro h
    exact (Int.ediv_mul_cancel h).symm

/-- C15: with a positive number of clock ticks per second that is divisible by 4,
when the fast timer fires at a time `now` that is not negative, the fast tick of
the engine is run first, and then the slow tick is run exactly when `now` is a
multiple of half a second, which is the test `now == roundTime(now, 2)`. At the
`k`-th point of the quarter-second grid that is exactly when `k` is even, so the
slow tick runs on every second fast tick. -/
theorem fast_timer_ticks (env : Collaborators) (ticks : EngineTimers) (scale now : Int)
    (s : TCP_lwIP) (hpos : 0 < scale) (h4 : 4 ∣ scale) (hnow : 0 ≤ now) :
    (roundTime scale now 2 = some now ↔ (scale / 2) ∣ now)
    ∧ ((scale / 2) ∣ now →
        dispatchMessage env ticks scale now s .selfFastTimer
          = match ticks.tcp_fasttmr (s.emit .tcp_fasttmr) with
            | .thrown f s1 => .thrown f s1
            | .ok _ s1 => ticks.tcp_slowtmr (s1.emit .tcp_slowtmr))
    ∧ (¬ (scale / 2) ∣ now →
        dispatchMessage env ticks scale now s .selfFastTimer
          = match ticks.tcp_fasttmr (s.emit .tcp_fasttmr) with
            | .thrown f s1 => .thrown f s1
            | .ok _ s1 => .ok () s1)
    ∧ ((scale / 2) ∣ now →
        dispatchMessage env idleTimers scale now s .selfFastTimer
          = .ok () { s with trace := s.trace ++ [.tcp_fasttmr, .tcp_slowtmr] })
    ∧ (¬ (scale / 2) ∣ now →
        dispatchMessage env idleTimers scale now s .selfFastTimer
          = .ok () { s with trace := s.trace ++ [.tcp_fasttmr] })
    ∧ (∀ k : Nat, now = k * (scale / 4) → ((scale / 2) ∣ now ↔ Even k)) := by
  have h2 : (2 : Int) ∣ scale := Dvd.dvd.trans (by decide) h4
  have hdue := slowTickDue_eq scale now hpos h2 hnow
  obtain ⟨hd, hr⟩ := roundTime_eq scale now 2 hpos (by decide) h2 hnow
  have gen : ∀ tk : EngineTimers, dispatchMessage env tk scale now s .selfFastTimer
      = match tk.tcp_fasttmr (s.emit .tcp_fasttmr) with
        | .thrown f s1 => .thrown f s1
        | .ok _ s1 => if (scale / 2) ∣ now then tk.tcp_slowtmr (s1.emit .tcp_slowtmr)
            else .ok () s1 := by
    intro tk
    simp only [dispatchMessage, hdue]
    cases tk.tcp_fasttmr (s.emit .tcp_fasttmr) with
    | thrown f s1 => rfl
    | ok u s1 =>
      by_cases hdv : (scale / 2) ∣ now
      · simp [hdv]
      · simp [hdv]
  refine ⟨?_, ?_, ?_, ?_, ?_, ?_⟩
  · rw [hr, Option.some.injEq]
    constructor
    · intro h
      exact Dvd.intro_left _ h
    · intro h
      exact Int.ediv_mul_cancel h
  · intro hdv
    rw [gen ticks]
    cases ticks.tcp_fasttmr (s.emit .tcp_fasttmr) with
    | thrown f s1 => rfl
    | ok u s1 => simp [hdv]
  · intro hdv
    rw [gen ticks]
    cases ticks.tcp_fasttmr (s.emit .tcp_fasttmr) with
    | thrown f s1 => rfl
    | ok u s1 => simp [hdv]
  · intro hdv
    rw [gen idleTimers]
    simp [idleTimers, hdv, TCP_lwIP.emit]
  · intro hdv
    rw [gen idleTimers]
    simp [idleTimers, hdv, TCP_lwIP.emit]
  · intro k hk
    obtain ⟨c, hc⟩ := h4
    have hc0 : 0 < c := by omega
    have e4 : scale / 4 = c := by rw [hc]; exact Int.mul_ediv_cancel_left _ (by decide)
    have e2 : scale / 2 = 2 * c := by
      rw [hc, show (4 : Int) * c = 2 * (2 * c) by ring]
      exact Int.mul_ediv_cancel_left _ (by decide)
    rw [hk, e4, e2]
    constructor
    · rintro ⟨m, hm⟩
      have : (k : Int) = 2 * m := by
        have h1 : (k : Int) * c = (2 * m) * c := by rw [hm]; ring
        exact Int.eq_of_mul_eq_mul_right hc0.ne' h1
      have hk2 : (2 : Int) ∣ (k : Int) := ⟨m, this⟩
      have : (2 : Nat) ∣ k := by exact_mod_cast hk2
      exact even_iff_two_dvd.mpr this
    · intro hev
      obtain ⟨m, hm⟩ := even_iff_two_dvd.mp hev
      refine ⟨(m : Int), ?_⟩
      rw [hm]
      push_cast
      ring

/-- C15 at picosecond resolution: the timer firing at 0.5 s runs both ticks, the
timer firing at 0.75 s the fast tick only. -/
theorem fast_timer_ticks_witness :
    (0 : Int) < 1000000000000
    ∧ (4 : Int) ∣ 1000000000000
    ∧ dispatchMessage sampleEnv idleTimers 1000000000000 500000000000 sampleState .selfFastTimer
        = .ok () { sampleState with trace := sampleState.trace ++ [.tcp_fasttmr, .tcp_slowtmr] }
    ∧ dispatchMessage sampleEnv idleTimers 1000000000000 750000000000 sampleState .selfFastTimer
        = .ok () { sampleState with trace := sampleState.trace ++ [.tcp_fasttmr] } :=
  ⟨by decide, by decide,
   (fast_timer_ticks sampleEnv idleTimers 1000000000000 500000000000 sampleState (by decide)
      (by decide) (by decide)).2.2.2.1 (by decide),
   (fast_timer_ticks sampleEnv idleTimers 1000000000000 750000000000 sampleState (by decide)
      (by decide) (by decide)).2.2.2.2.1 (by decide)⟩

/-! ## What the operations leave untouched -/

theorem processAppCommand_frame (s : TCP_lwIP) (connP : TcpLwipConnection) (msgP : cMessage) :
    (processAppCommand s connP msgP).state.pCurTcpSegM = s.pCurTcpSegM
    ∧ (processAppCommand s connP msgP).state.fastTimerScheduledAt = s.fastTimerScheduledAt
    ∧ (processAppCommand s connP msgP).state.pLwipTcpLayerM = s.pLwipTcpLayerM := by
  unfold processAppCommand process_OPEN_ACTIVE process_OPEN_PASSIVE process_ACCEPT process_SEND
    process_CLOSE process_ABORT process_STATUS
  repeat (first | exact ⟨rfl, rfl, rfl⟩ | split)

theorem handleAppMessage_frame (s : TCP_lwIP) (msgP : cMessage) :
    (handleAppMessage s msgP).state.pCurTcpSegM = s.pCurTcpSegM
    ∧ (handleAppMessage s msgP).state.fastTimerScheduledAt = s.fastTimerScheduledAt
    ∧ (handleAppMessage s msgP).state.pLwipTcpLayerM = s.pLwipTcpLayerM := by
  cases hf : findAppConn s msgP.socketId with
  | some conn =>
    have key : handleAppMessage s msgP = processAppCommand s conn msgP := by
      simp only [handleAppMessage, hf]
    rw [key]
    exact processAppCommand_frame s conn msgP
  | none =>
    obtain ⟨kind, socketId, controlInfo, asPacket⟩ := msgP
    simp only at hf
    rcases controlInfo with _ | ci
    · simp [handleAppMessage, hf, Result.state]
    · cases ci with
      | openCommand c =>
        simp only [handleAppMessage, hf]
        exact processAppCommand_frame _ _ _
      | acceptCommand => simp [handleAppMessage, hf, Result.state]
      | command => simp [handleAppMessage, hf, Result.state]
      | other => simp [handleAppMessage, hf, Result.state]

theorem handleIpInputMessage_cases (env : Collaborators) (s : TCP_lwIP) (packet : Packet) :
    handleIpInputMessage env s packet = .ok () s
    ∨ (∃ f s1, handleIpInputMessage env s packet = .thrown f s1)
    ∨ ∃ i d l s1, s1.fastTimerScheduledAt = s.fastTimerScheduledAt
        ∧ s1.pLwipTcpLayerM = s.pLwipTcpLayerM
        ∧ handleIpInputMessage env s packet = afterEngine (env.if_receive_packet i d l s1) := by
  unfold handleIpInputMessage
  split
  · exact Or.inl rfl
  · dsimp only
    split_ifs
    all_goals
      first
        | exact Or.inr (Or.inl ⟨_, _, rfl⟩)
        | (refine Or.inr (Or.inr ⟨_, _, _, _, ?_, ?_, rfl⟩) <;> rfl)

/-! ## Outbound segments without a connection -/

/-- C18, the code fails the claim: for a header-only segment sent without a
handle (`pcb` is `nullptr`), or on a handle without back-reference, `ip_output`
reaches the INFO log line with `conn` null; when log statements of level INFO are
evaluated the line reads `conn->connIdM` and the call ends there, with nothing
sent on `ipOut`. With the log line not evaluated the same call sends exactly one
packet, tagged with the TCP protocol and the given source and destination. -/
theorem ip_output_handleless_reads_null_connection :
    ip_output (sampleOut true) sampleState none (.addr 1) (.addr 2) sampleHeaderOnlyBytes 20
      = .thrown .nullDeref sampleState
    ∧ ip_output (sampleOut true)
        { sampleState with pcbs := [(0, { samplePcb .CLOSED 7 with callback_arg := none })] }
        (some 0) (.addr 1) (.addr 2) sampleHeaderOnlyBytes 20
      = .thrown .nullDeref
          { sampleState with pcbs := [(0, { samplePcb .CLOSED 7 with callback_arg := none })] }
    ∧ ip_output (sampleOut false) sampleState none (.addr 1) (.addr 2) sampleHeaderOnlyBytes 20
      = .ok () { sampleState with trace := sampleState.trace ++
          [.sendIpOut { header := sampleHeader .CRC_COMPUTED, payload := [],
                        packetProtocol := .tcp, transportProtocol := .tcp,
                        dispatchProtocol := .ipv4, srcAddress := .addr 1,
                        destAddress := .addr 2 }] } := by
  refine ⟨?_, ?_, ?_⟩ <;> decide

/-! ## Arming of the fast timer -/

theorem removeConnection_slot (s : TCP_lwIP) (conn : TcpLwipConnection) :
    (removeConnection s conn).state.pCurTcpSegM = s.pCurTcpSegM := by
  unfold removeConnection
  repeat (first | rfl | split)

theorem tcp_event_err_slot (s : TCP_lwIP) (conn : TcpLwipConnection) (err : Int) :
    (tcp_event_err s conn err).state.pCurTcpSegM = s.pCurTcpSegM := by
  unfold tcp_event_err
  split_ifs
  · have h := removeConnection_slot (sendIndicationToApp s conn .TCP_I_CLOSED) conn
    cases hr : removeConnection (sendIndicationToApp s conn .TCP_I_CLOSED) conn <;>
      (rw [hr] at h; exact h)
  · have h := removeConnection_slot (sendIndicationToApp s conn .TCP_I_CONNECTION_RESET) conn
    cases hr : removeConnection (sendIndicationToApp s conn .TCP_I_CONNECTION_RESET) conn <;>
      (rw [hr] at h; exact h)
  · rfl

theorem tcp_event_recv_slot (s : TCP_lwIP) (conn : TcpLwipConnection) (p : Option pbuf)
    (err : Int) : (tcp_event_recv s conn p err).state.pCurTcpSegM = s.pCurTcpSegM := by
  unfold tcp_event_recv
  cases p with
  | some q => rfl
  | none =>
    cases hp : conn.pcbM with
    | none => rfl
    | some h =>
      cases hf : StdMap.find h s.pcbs with
      | none => simp [hf, Result.state]
      | some pcb => simp [hf, Result.state, sendIndicationToApp, TCP_lwIP.emit]

theorem lwip_tcp_event_slot (s : TCP_lwIP) (uniqueNumber : Int) (arg : Option TcpLwipConnection)
    (pcb : Option Nat) (event : lwip_event) (p : Option pbuf) (size : Nat) (err : Int) :
    (lwip_tcp_event s uniqueNumber arg pcb event p size err).state.pCurTcpSegM
      = s.pCurTcpSegM := by
  cases arg with
  | none => rfl
  | some conn =>
    cases event with
    | LWIP_EVENT_ACCEPT => cases pcb <;> rfl
    | LWIP_EVENT_SENT =>
      simp only [lwip_tcp_event]
      split_ifs <;> rfl
    | LWIP_EVENT_RECV =>
      simp only [lwip_tcp_event]
      split_ifs
      · rfl
      · exact tcp_event_recv_slot s conn p err
    | LWIP_EVENT_CONNECTED =>
      simp only [lwip_tcp_event]
      split_ifs <;> rfl
    | LWIP_EVENT_POLL =>
      simp only [lwip_tcp_event]
      split_ifs <;> rfl
    | LWIP_EVENT_ERR => exact tcp_event_err_slot s conn err
    | invalid n => rfl

theorem ip_output_slot (out : OutputCollaborators) (s : TCP_lwIP) (pcb : Option Nat)
    (srcP destP : L3Address) (dataP : List Nat) (lenP : Nat) :
    (ip_output out s pcb srcP destP dataP lenP).state.pCurTcpSegM = s.pCurTcpSegM := by
  have hsend : ∀ conn tcpHdr data,
      (ip_output_send out s conn srcP destP tcpHdr data).state.pCurTcpSegM = s.pCurTcpSegM := by
    intro conn tcpHdr data
    unfold ip_output_send
    cases conn <;> (dsimp only; split_ifs <;> rfl)
  have hnone : (match out.popTcpHeader (dataP.take lenP) with
      | none => Result.thrown Fault.malformedPacket s
      | some (tcpHdr, rest) =>
        if rest.length ≠ 0 then Result.thrown Fault.assertFailed s
        else ip_output_send out s none srcP destP tcpHdr []).state.pCurTcpSegM
        = s.pCurTcpSegM := by
    cases out.popTcpHeader (dataP.take lenP) with
    | none => rfl
    | some hr =>
      obtain ⟨tcpHdr, rest⟩ := hr
      dsimp only
      split_ifs
      · rfl
      · exact hsend _ _ _
  cases pcb with
  | none => exact hnone
  | some h =>
    simp only [ip_output]
    cases hf : StdMap.find h s.pcbs with
    | none => rfl
    | some pcbv =>
      cases hc : pcbv.callback_arg with
      | none =>
        simp only [Option.map_some', hc]
        exact hnone
      | some c =>
        simp only [Option.map_some', hc]
        exact hsend _ _ _

theorem armFastTimer_slot (scale now : Int) (s : TCP_lwIP) :
    (armFastTimer scale now s).state.pCurTcpSegM = s.pCurTcpSegM := by
  unfold armFastTimer
  repeat (first | rfl | split)

theorem handleIpInputMessage_slot (env : Collaborators) (s r : TCP_lwIP) (packet : Packet)
    (hs : s.pCurTcpSegM = none) (h : handleIpInputMessage env s packet = .ok () r) :
    r.pCurTcpSegM = none := by
  rcases handleIpInputMessage_cases env s packet with h1 | ⟨f, sx, h1⟩ | ⟨i, d, l, sx, _, _, h1⟩
  · rw [h1] at h
    simp only [Result.ok.injEq, true_and] at h
    rw [← h]
    exact hs
  · rw [h1] at h
    exact Result.noConfusion h
  · rw [h1] at h
    cases he : env.if_receive_packet i d l sx with
    | thrown f sy => rw [he] at h; exact Result.noConfusion h
    | ok u sy =>
      rw [he] at h
      simp only [afterEngine, Result.ok.injEq, true_and] at h
      rw [← h]

theorem dispatchMessage_slot (env : Collaborators) (ticks : EngineTimers) (scale now : Int)
    (hfast : ∀ s r, s.pCurTcpSegM = none → ticks.tcp_fasttmr s = .ok () r → r.pCurTcpSegM = none)
    (hslow : ∀ s r, s.pCurTcpSegM = none → ticks.tcp_slowtmr s = .ok () r → r.pCurTcpSegM = none)
    (s : TCP_lwIP) (msgP : Message) (s1 : TCP_lwIP) (hs : s.pCurTcpSegM = none)
    (hd : dispatchMessage env ticks scale now s msgP = .ok () s1) : s1.pCurTcpSegM = none := by
  cases msgP with
  | selfFastTimer =>
    simp only [dispatchMessage] at hd
    have hs0 : (s.emit .tcp_fasttmr).pCurTcpSegM = none := hs
    cases hf : ticks.tcp_fasttmr (s.emit .tcp_fasttmr) with
    | thrown f sa => rw [hf] at hd; exact Result.noConfusion hd
    | ok u sa =>
      rw [hf] at hd
      have hsa : sa.pCurTcpSegM = none := hfast _ _ hs0 hf
      cases hdue : slowTickDue scale now with
      | none => rw [hdue] at hd; exact Result.noConfusion hd
      | some b =>
        rw [hdue] at hd
        cases b with
        | true =>
          have hsb : (sa.emit .tcp_slowtmr).pCurTcpSegM = none := hsa
          exact hslow _ _ hsb hd
        | false =>
          simp only [Result.ok.injEq, true_and] at hd
          rw [← hd]
          exact hsa
  | selfOther => exact Result.noConfusion hd
  | ipIn protocol pk =>
    cases pk with
    | none => exact Result.noConfusion hd
    | some pk =>
      simp only [dispatchMessage] at hd
      split_ifs at hd with h1 h2
      · exact handleIpInputMessage_slot env s s1 pk hs hd
      · simp only [Result.ok.injEq, true_and] at hd
        rw [← hd]
        exact hs
  | fromApp m =>
    simp only [dispatchMessage] at hd
    have h1 := (handleAppMessage_frame s m).1
    cases ha : handleAppMessage s m with
    | thrown f sa => rw [ha] at hd; exact Result.noConfusion hd
    | ok u sa =>
      rw [ha] at hd h1
      simp only [Result.state] at h1
      dsimp only at hd
      split_ifs at hd with hk
      · simp only [Result.ok.injEq, true_and] at hd
        rw [← hd]
        exact h1.trans hs
      · unfold applyReaction at hd
        cases hfl : (env.connectionOperation sa).fault with
        | some f => rw [hfl] at hd; exact Result.noConfusion hd
        | none =>
          rw [hfl] at hd
          simp only [Result.ok.injEq, true_and] at hd
          rw [← hd]
          exact h1.trans hs

/-- C17: the current-segment slot is empty in the initial state. In
`handleIpInputMessage` the engine is entered with the slot holding the segment,
and whenever the engine returns normally the slot is empty again, so a completed
`handleIpInputMessage` that started with an empty slot ends with an empty slot.
No other operation writes the slot: `handleAppMessage`, every engine event of
`lwip_tcp_event`, `ip_output` and the arming of the fast timer leave it as it
was. Consequently, when the timer entry points of the engine, which reach the
module only through these callbacks, return with the slot as empty as they found
it, the slot is empty after every sequence of completed messages from the
initial state, which is what the ASSERT before the engine call tests. -/
theorem current_segment_slot_empty (env : Collaborators) (ticks : EngineTimers) (scale : Int) :
    initialState.pCurTcpSegM = none
    ∧ (∀ (s : TCP_lwIP) (packet : Packet), s.pCurTcpSegM = none →
        packet.header.crcMode ≠ .CRC_DECLARED_INCORRECT →
        env.sizeof_ip_hdr / 4 * 4 = env.sizeof_ip_hdr →
        ∃ seg d l s1, s1.pCurTcpSegM = some seg
          ∧ handleIpInputMessage env s packet
              = afterEngine (env.if_receive_packet packet.interfaceId d l s1))
    ∧ (∀ (r : Result Unit) (s2 : TCP_lwIP), afterEngine r = .ok () s2 → s2.pCurTcpSegM = none)
    ∧ (∀ (s r : TCP_lwIP) (packet : Packet), s.pCurTcpSegM = none →
        handleIpInputMessage env s packet = .ok () r → r.pCurTcpSegM = none)
    ∧ (∀ (s : TCP_lwIP) (msgP : cMessage),
        (handleAppMessage s msgP).state.pCurTcpSegM = s.pCurTcpSegM)
    ∧ (∀ (s : TCP_lwIP) (uniqueNumber : Int) (arg : Option TcpLwipConnection) (pcb : Option Nat)
          (event : lwip_event) (p : Option pbuf) (size : Nat) (err : Int),
        (lwip_tcp_event s uniqueNumber arg pcb event p size err).state.pCurTcpSegM
          = s.pCurTcpSegM)
    ∧ (∀ (out : OutputCollaborators) (s : TCP_lwIP) (pcb : Option Nat) (srcP destP : L3Address)
          (dataP : List Nat) (lenP : Nat),
        (ip_output out s pcb srcP destP dataP lenP).state.pCurTcpSegM = s.pCurTcpSegM)
    ∧ (∀ (now : Int) (s : TCP_lwIP),
        (armFastTimer scale now s).state.pCurTcpSegM = s.pCurTcpSegM)
    ∧ ((∀ s r, s.pCurTcpSegM = none → ticks.tcp_fasttmr s = .ok () r → r.pCurTcpSegM = none) →
       (∀ s r, s.pCurTcpSegM = none → ticks.tcp_slowtmr s = .ok () r → r.pCurTcpSegM = none) →
       ∀ (msgs : List (Int × Message)) (r : TCP_lwIP),
         runMessages env ticks scale msgs initialState = .ok () r → r.pCurTcpSegM = none) := by
  refine ⟨rfl, ?_, ?_, ?_, ?_, ?_, ?_, ?_, ?_⟩
  · intro s packet hs hm hh
    exact ⟨_, _, _, _, rfl, handleIpInputMessage_dispatch env s packet _ rfl hm hh hs⟩
  · intro r s2 h
    cases r with
    | thrown f sx => exact Result.noConfusion h
    | ok u sx =>
      simp only [afterEngine, Result.ok.injEq, true_and] at h
      rw [← h]
  · intro s r packet hs h
    exact handleIpInputMessage_slot env s r packet hs h
  · intro s msgP
    exact (handleAppMessage_frame s msgP).1
  · intro s uniqueNumber arg pcb event p size err
    exact lwip_tcp_event_slot s uniqueNumber arg pcb event p size err
  · intro out s pcb srcP destP dataP lenP
    exact ip_output_slot out s pcb srcP destP dataP lenP
  · intro now s
    exact armFastTimer_slot scale now s
  · intro hfast hslow msgs
    have gen : ∀ (msgs : List (Int × Message)) (s r : TCP_lwIP), s.pCurTcpSegM = none →
        runMessages env ticks scale msgs s = .ok () r → r.pCurTcpSegM = none := by
      intro msgs
      induction msgs with
      | nil =>
        intro s r hs hr
        simp only [runMessages, Result.ok.injEq, true_and] at hr
        rw [← hr]
        exact hs
      | cons m rest ih =>
        intro s r hs hr
        obtain ⟨now, msgP⟩ := m
        simp only [runMessages] at hr
        cases hh : handleMessage env ticks scale now s msgP with
        | thrown f sx => rw [hh] at hr; exact Result.noConfusion hr
        | ok u sx =>
          rw [hh] at hr
          refine ih sx r ?_ hr
          have hsd : (delivered s msgP).pCurTcpSegM = none := by
            cases msgP <;> exact hs
          cases hd : dispatchMessage env ticks scale now (delivered s msgP) msgP with
          | thrown f sy =>
            simp only [handleMessage, hd] at hh
            cases hh
          | ok v s1 =>
            have h1 : s1.pCurTcpSegM = none :=
              dispatchMessage_slot env ticks scale now hfast hslow _ msgP s1 hsd hd
            have h2 := armFastTimer_slot scale now s1
            simp only [handleMessage, hd] at hh
            rw [hh] at h2
            exact h2.trans h1
    intro r hr
    exact gen msgs initialState r rfl hr

/-- C17 for a run of three messages from the initial state at millisecond
resolution: an open command, an inbound segment, and the fast timer. -/
theorem current_segment_slot_empty_witness :
    ∃ r, runMessages sampleEnv idleTimers 1000
          [(0, .fromApp sampleOpenActive), (100, .ipIn .tcp (some (samplePacket .CRC_COMPUTED))),
           (250, .selfFastTimer)] initialState = .ok () r
      ∧ r.pCurTcpSegM = none
      ∧ r.trace.length = 3 := by
  refine ⟨(runMessages sampleEnv idleTimers 1000
          [(0, .fromApp sampleOpenActive), (100, .ipIn .tcp (some (samplePacket .CRC_COMPUTED))),
           (250, .selfFastTimer)] initialState).state, by decide, ?_, by decide⟩
  exact (current_segment_slot_empty sampleEnv idleTimers 1000).2.2.2.2.2.2.2.2
    (fun s r hs h => by cases h; exact hs) (fun s r hs h => by cases h; exact hs)
    [(0, .fromApp sampleOpenActive), (100, .ipIn .tcp (some (samplePacket .CRC_COMPUTED))),
     (250, .selfFastTimer)] _ (by decide)

/-! ## A-MSDU deaggregation -/

/-- C19, the code fails the claim: for an A-MSDU header from an access point to a
station (FromDS set, ToDS clear) `setExplodedFrameAddress` takes the receiver
from the subframe DA and address3 from the subframe SA, but assigns the
transmitter address of the exploded header to itself. The transmitter left in
the header is the one it held before (0 in the new header `deaggregateFrame`
passes, 99 in another), not 170, the transmitter of the A-MSDU header. -/
theorem setExplodedFrameAddress_ap_to_sta_keeps_transmitter :
    sampleAMsduHeader.fromDS = true
    ∧ sampleAMsduHeader.toDS = false
    ∧ sampleAMsduHeader.transmitterAddress = 170
    ∧ (setExplodedFrameAddress Ieee80211DataHeader.fresh { length := 3, da := 204, sa := 221 }
        sampleAMsduHeader).transmitterAddress = 0
    ∧ (setExplodedFrameAddress { Ieee80211DataHeader.fresh with transmitterAddress := 99 }
        { length := 3, da := 204, sa := 221 } sampleAMsduHeader).transmitterAddress = 99
    ∧ (setExplodedFrameAddress Ieee80211DataHeader.fresh { length := 3, da := 204, sa := 221 }
        sampleAMsduHeader).receiverAddress = 204
    ∧ (setExplodedFrameAddress Ieee80211DataHeader.fresh { length := 3, da := 204, sa := 221 }
        sampleAMsduHeader).address3 = 221 := by
  decide

theorem setExplodedFrameAddress_keeps (header : Ieee80211DataHeader)
    (subframeHeader : Ieee80211MsduSubframeHeader) (aMsduHeader : Ieee80211DataHeader) :
    (setExplodedFrameAddress header subframeHeader aMsduHeader).tid = header.tid
    ∧ (setExplodedFrameAddress header subframeHeader aMsduHeader).toDS = header.toDS
    ∧ (setExplodedFrameAddress header subframeHeader aMsduHeader).fromDS = header.fromDS
    ∧ (setExplodedFrameAddress header subframeHeader aMsduHeader).type = header.type := by
  unfold setExplodedFrameAddress
  dsimp only
  split_ifs <;> exact ⟨rfl, rfl, rfl, rfl⟩

theorem explodedFrame_fields (amsduHeader : Ieee80211DataHeader) (tid : Int)
    (h : Ieee80211MsduSubframeHeader) (msdu : List Nat) :
    (explodedFrame amsduHeader tid h msdu).data = msdu
    ∧ (explodedFrame amsduHeader tid h msdu).header.tid = tid
    ∧ (explodedFrame amsduHeader tid h msdu).header.toDS = amsduHeader.toDS
    ∧ (explodedFrame amsduHeader tid h msdu).header.fromDS = amsduHeader.fromDS
    ∧ (explodedFrame amsduHeader tid h msdu).header.type = .ST_DATA := by
  unfold explodedFrame
  dsimp only
  exact ⟨rfl, (setExplodedFrameAddress_keeps _ _ _).1, (setExplodedFrameAddress_keeps _ _ _).2.1,
    (setExplodedFrameAddress_keeps _ _ _).2.2.1, (setExplodedFrameAddress_keeps _ _ _).2.2.2⟩

theorem skip_of_padding (n : Nat) :
    (if (4 - ((n : Nat) : Int) % 4 : Int) = 4 then (0 : Int) else 4 - ((n : Nat) : Int) % 4).toNat
      = paddingTo4 n := by
  unfold paddingTo4
  split_ifs with h <;> omega

theorem length_le_aMsduBody (serialize : Ieee80211MsduSubframeHeader → List Nat)
    (hlen : ∀ h, (serialize h).length = subframeHeaderChunkLength) (subs : List Subframe) :
    subs.length ≤ (aMsduBody serialize subs).length := by
  induction subs with
  | nil => simp [aMsduBody]
  | cons x rest ih =>
    simp only [aMsduBody, List.length_append, List.length_cons, hlen, subframeHeaderChunkLength]
    omega

theorem deaggregateLoop_wellFormed (serialize : Ieee80211MsduSubframeHeader → List Nat)
    (popSubframeHeader : List Nat → Option Ieee80211MsduSubframeHeader)
    (hlen : ∀ h, (serialize h).length = subframeHeaderChunkLength)
    (hpop : ∀ h rest, popSubframeHeader (serialize h ++ rest) = some h)
    (amsduHeader : Ieee80211DataHeader) (tid : Int) :
    ∀ (subs : List Subframe) (pad : List Nat) (p : Int) (frames : List Ieee80211Frame)
      (fuel : Nat),
      wellFormedSubframes subs →
      (subs ≠ [] → (if p = 4 then (0 : Int) else p).toNat = pad.length) →
      (subs = [] → pad = []) →
      subs.length < fuel →
      deaggregateLoop popSubframeHeader amsduHeader tid fuel (pad ++ aMsduBody serialize subs) p
          frames
        = .ok (frames ++ subs.map (fun x => explodedFrame amsduHeader tid x.header x.msdu)) := by
  intro subs
  induction subs with
  | nil =>
    intro pad p frames fuel _ _ hpad hfuel
    obtain ⟨f, rfl⟩ : ∃ f, fuel = f + 1 := ⟨fuel - 1, by simp at hfuel; omega⟩
    rw [hpad rfl]
    simp [deaggregateLoop, aMsduBody]
  | cons x rest ih =>
    intro pad p frames fuel hwf hskip _ hfuel
    obtain ⟨f, rfl⟩ : ∃ f, fuel = f + 1 := ⟨fuel - 1, by simp at hfuel; omega⟩
    have hskip1 := hskip (by simp)
    have hx : x.header.length = x.msdu.length
        ∧ (rest ≠ [] → x.padding.length = paddingTo4 (subframeHeaderChunkLength + x.msdu.length))
        ∧ (rest = [] → x.padding = []) ∧ wellFormedSubframes rest := by
      cases rest with
      | nil => exact ⟨hwf.1, fun h => absurd rfl h, fun _ => hwf.2, trivial⟩
      | cons y r => exact ⟨hwf.1, fun _ => hwf.2.1, fun h => absurd h (by simp), hwf.2.2⟩
    obtain ⟨hl, hp1, hp2, hwr⟩ := hx
    have hbody : aMsduBody serialize (x :: rest)
        = serialize x.header ++ (x.msdu ++ (x.padding ++ aMsduBody serialize rest)) := by
      simp [aMsduBody, List.append_assoc]
    have hpos : (pad ++ aMsduBody serialize (x :: rest)).length > 0 := by
      rw [hbody]
      simp only [List.length_append, hlen, subframeHeaderChunkLength]
      omega
    have h1 : ¬ (pad ++ aMsduBody serialize (x :: rest)).length < pad.length := by
      simp
    have h2 : ¬ (serialize x.header ++ (x.msdu ++ (x.padding ++ aMsduBody serialize rest))).length
        < subframeHeaderChunkLength := by
      simp only [List.length_append, hlen]
      omega
    have h3 : ¬ (x.msdu ++ (x.padding ++ aMsduBody serialize rest)).length < x.header.length := by
      simp only [List.length_append, hl]
      omega
    have hd1 : (serialize x.header ++ (x.msdu ++ (x.padding ++ aMsduBody serialize rest))).drop
        subframeHeaderChunkLength = x.msdu ++ (x.padding ++ aMsduBody serialize rest) :=
      List.drop_left' (hlen _)
    have ht : (x.msdu ++ (x.padding ++ aMsduBody serialize rest)).take x.header.length = x.msdu :=
      List.take_left' hl.symm
    have hd2 : (x.msdu ++ (x.padding ++ aMsduBody serialize rest)).drop x.msdu.length
        = x.padding ++ aMsduBody serialize rest := List.drop_left' rfl
    rw [deaggregateLoop, if_pos hpos]
    dsimp only
    rw [hskip1, if_neg h1, List.drop_left' rfl, hbody, hpop]
    dsimp only
    rw [if_neg h2, hd1, if_neg h3, ht, hd2]
    rw [ih x.padding _ (frames ++ [explodedFrame amsduHeader tid x.header x.msdu]) f hwr ?_ hp2
      (by simp at hfuel; omega)]
    · simp
    · intro hne
      rw [hp1 hne]
      exact skip_of_padding _

/-- C20: for a reading of subframe headers that returns the header whose 14
bytes stand at the pop offset, and an A-MSDU whose body is a sequence of
subframes, each a subframe header, an MSDU of the length the header declares
and, except for the last, padding to the next multiple of 4 bytes,
`deaggregateFrame` returns (the iteration bound of the model is not reached) one
frame per subframe, in order; the data of the i-th frame are exactly the bytes of
the i-th MSDU, and every frame carries the TID, ToDS and FromDS of the A-MSDU
header. -/
theorem deaggregateFrame_wellFormed (serialize : Ieee80211MsduSubframeHeader → List Nat)
    (popSubframeHeader : List Nat → Option Ieee80211MsduSubframeHeader)
    (hlen : ∀ h, (serialize h).length = subframeHeaderChunkLength)
    (hpop : ∀ h rest, popSubframeHeader (serialize h ++ rest) = some h)
    (amsduHeader : Ieee80211DataHeader) (subs : List Subframe)
    (hwf : wellFormedSubframes subs) :
    ∃ frames, deaggregateFrame popSubframeHeader
          { header := amsduHeader, data := aMsduBody serialize subs } = .ok frames
      ∧ frames.length = subs.length
      ∧ frames.map (fun fr => fr.data) = subs.map (fun x => x.msdu)
      ∧ (∀ fr ∈ frames, fr.header.tid = amsduHeader.tid ∧ fr.header.toDS = amsduHeader.toDS
          ∧ fr.header.fromDS = amsduHeader.fromDS) := by
  refine ⟨subs.map (fun x => explodedFrame amsduHeader amsduHeader.tid x.header x.msdu),
    ?_, by simp, ?_, ?_⟩
  · have key := deaggregateLoop_wellFormed serialize popSubframeHeader hlen hpop amsduHeader
      amsduHeader.tid subs [] 0 [] ((aMsduBody serialize subs).length + 1) hwf
      (fun _ => by decide) (fun _ => rfl)
      (Nat.lt_succ_of_le (length_le_aMsduBody serialize hlen subs))
    simpa [deaggregateFrame] using key
  · rw [List.map_map]
    apply List.map_congr_left
    intro x _
    exact (explodedFrame_fields amsduHeader amsduHeader.tid x.header x.msdu).1
  · intro fr hfr
    obtain ⟨x, _, rfl⟩ := List.mem_map.mp hfr
    obtain ⟨_, h2, h3, h4, _⟩ := explodedFrame_fields amsduHeader amsduHeader.tid x.header x.msdu
    exact ⟨h2, h3, h4⟩

/-- C20 at an A-MSDU of two subframes, MSDUs of 3 and 2 bytes with 3 bytes of
padding between them. -/
theorem deaggregateFrame_wellFormed_witness :
    (∀ h, (sampleSerialize h).length = subframeHeaderChunkLength)
    ∧ wellFormedSubframes sampleSubframes
    ∧ ∃ frames, deaggregateFrame samplePopSubframeHeader
          { header := sampleAMsduHeader, data := aMsduBody sampleSerialize sampleSubframes }
          = .ok frames
      ∧ frames.length = sampleSubframes.length
      ∧ frames.map (fun fr => fr.data) = sampleSubframes.map (fun x => x.msdu)
      ∧ (∀ fr ∈ frames, fr.header.tid = sampleAMsduHeader.tid
          ∧ fr.header.toDS = sampleAMsduHeader.toDS
          ∧ fr.header.fromDS = sampleAMsduHeader.fromDS) :=
  ⟨fun _ => rfl, ⟨rfl, rfl, rfl, rfl⟩,
   deaggregateFrame_wellFormed sampleSerialize samplePopSubframeHeader (fun _ => rfl)
     (fun h rest => by
       simp only [sampleSerialize, samplePopSubframeHeader, List.cons_append, List.nil_append,
         Nat.div_add_mod'])
     sampleAMsduHeader sampleSubframes ⟨rfl, rfl, rfl, rfl⟩⟩

/-! ## PPP header and trailer serializers -/

theorem writeUint8_of_byte (stream : MemoryOutputStream) (n : Nat) (hn : n < 2 ^ 8) :
    stream.writeUint8 (n : Int) = { data := stream.data ++ [n] } := by
  have h : ((n : Int) % 2 ^ 8).toNat = n := by
    have : (n : Int) % 2 ^ 8 = n := Int.emod_eq_of_lt (by omega) (by exact_mod_cast hn)
    rw [this]
    exact Int.toNat_natCast n
  simp only [MemoryOutputStream.writeUint8, h]

theorem writeUint16Be_of_word (stream : MemoryOutputStream) (n : Nat) (hn : n < 2 ^ 16) :
    stream.writeUint16Be (n : Int) = { data := stream.data ++ [n / 2 ^ 8, n % 2 ^ 8] } := by
  have h : ((n : Int) % 2 ^ 16).toNat = n := by
    have : (n : Int) % 2 ^ 16 = n := Int.emod_eq_of_lt (by omega) (by exact_mod_cast hn)
    rw [this]
    exact Int.toNat_natCast n
  simp only [MemoryOutputStream.writeUint16Be, h]

/-- C21: for a `PppHeader` whose flag, address and control are 8-bit values and
whose protocol is a 16-bit value, `PppHeaderSerializer::serialize` appends exactly
5 bytes to the stream, flag, address, control and the protocol high byte first,
and `deserialize` on a stream that starts with these bytes returns a header with
the same four fields, having read 5 bytes and not beyond the end. Likewise, for
a `PppTrailer` whose FCS is a 16-bit value, `PppTrailerSerializer::serialize`
appends exactly 2 bytes, the FCS high byte first, and `deserialize` on a stream
that starts with them returns the same FCS, having read 2 bytes. -/
theorem ppp_serializers_roundtrip (h : PppHeader) (t : PppTrailer) (rest : List Nat)
    (hflag : 0 ≤ h.flag ∧ h.flag < 2 ^ 8) (haddress : 0 ≤ h.address ∧ h.address < 2 ^ 8)
    (hcontrol : 0 ≤ h.control ∧ h.control < 2 ^ 8)
    (hprotocol : 0 ≤ h.protocol ∧ h.protocol < 2 ^ 16) (hfcs : 0 ≤ t.fcs ∧ t.fcs < 2 ^ 16) :
    (∀ out : MemoryOutputStream,
        (PppHeaderSerializer.serialize out h).data
          = out.data ++ [h.flag.toNat, h.address.toNat, h.control.toNat,
              h.protocol.toNat / 2 ^ 8, h.protocol.toNat % 2 ^ 8])
    ∧ (PppHeaderSerializer.serialize { data := [] } h).data.length = 5
    ∧ PppHeaderSerializer.deserialize
        { data := (PppHeaderSerializer.serialize { data := [] } h).data ++ rest,
          position := 0, isReadBeyondEnd := false }
      = (h, { data := (PppHeaderSerializer.serialize { data := [] } h).data ++ rest,
              position := 5, isReadBeyondEnd := false })
    ∧ (∀ out : MemoryOutputStream,
        (PppTrailerSerializer.serialize out t).data
          = out.data ++ [t.fcs.toNat / 2 ^ 8, t.fcs.toNat % 2 ^ 8])
    ∧ (PppTrailerSerializer.serialize { data := [] } t).data.length = 2
    ∧ PppTrailerSerializer.deserialize
        { data := (PppTrailerSerializer.serialize { data := [] } t).data ++ rest,
          position := 0, isReadBeyondEnd := false }
      = (t, { data := (PppTrailerSerializer.serialize { data := [] } t).data ++ rest,
              position := 2, isReadBeyondEnd := false }) := by
  obtain ⟨flag, address, control, protocol⟩ := h
  obtain ⟨fcs⟩ := t
  simp only at hflag haddress hcontrol hprotocol hfcs
  lift flag to ℕ using hflag.1
  lift address to ℕ using haddress.1
  lift control to ℕ using hcontrol.1
  lift protocol to ℕ using hprotocol.1
  lift fcs to ℕ using hfcs.1
  have h1 : flag < 2 ^ 8 := by exact_mod_cast hflag.2
  have h2 : address < 2 ^ 8 := by exact_mod_cast haddress.2
  have h3 : control < 2 ^ 8 := by exact_mod_cast hcontrol.2
  have h4 : protocol < 2 ^ 16 := by exact_mod_cast hprotocol.2
  have h5 : fcs < 2 ^ 16 := by exact_mod_cast hfcs.2
  have hser : ∀ out : MemoryOutputStream,
      PppHeaderSerializer.serialize out
          { flag := flag, address := address, control := control, protocol := protocol }
        = { data := out.data ++ [flag, address, control, protocol / 2 ^ 8, protocol % 2 ^ 8] } := by
    intro out
    simp only [PppHeaderSerializer.serialize, writeUint8_of_byte _ _ h1,
      writeUint8_of_byte _ _ h2, writeUint8_of_byte _ _ h3, writeUint16Be_of_word _ _ h4,
      List.append_assoc, List.cons_append, List.nil_append]
  have htr : ∀ out : MemoryOutputStream,
      PppTrailerSerializer.serialize out { fcs := fcs }
        = { data := out.data ++ [fcs / 2 ^ 8, fcs % 2 ^ 8] } := by
    intro out
    simp only [PppTrailerSerializer.serialize, writeUint16Be_of_word _ _ h5]
  have hp : ((protocol / 2 ^ 8 * 2 ^ 8 + protocol % 2 ^ 8 : Nat) : Int) = protocol := by
    rw [Nat.div_add_mod']
  have hf : ((fcs / 2 ^ 8 * 2 ^ 8 + fcs % 2 ^ 8 : Nat) : Int) = fcs := by
    rw [Nat.div_add_mod']
  refine ⟨?_, ?_, ?_, ?_, ?_, ?_⟩
  · intro out
    rw [hser out]
    simp only [Int.toNat_natCast]
  · rw [hser]
    rfl
  · rw [hser]
    simp only [PppHeaderSerializer.deserialize, MemoryInputStream.readUint16Be,
      MemoryInputStream.readUint8, List.nil_append, List.cons_append,
      List.getElem?_cons_zero, List.getElem?_cons_succ, hp]
  · intro out
    rw [htr out]
    simp only [Int.toNat_natCast]
  · rw [htr]
    rfl
  · rw [htr]
    simp only [PppTrailerSerializer.deserialize, MemoryInputStream.readUint16Be,
      MemoryInputStream.readUint8, List.nil_append, List.cons_append,
      List.getElem?_cons_zero, List.getElem?_cons_succ, hf]

/-- C21 at the header with flag 0x7e, address 0xff, control 0x03 and protocol
0x0021, and the trailer with FCS 0xBEEF. -/
theorem ppp_serializers_roundtrip_witness :
    (PppHeaderSerializer.serialize { data := [] } samplePppHeader).data = [126, 255, 3, 0, 33]
    ∧ PppHeaderSerializer.deserialize
        { data := (PppHeaderSerializer.serialize { data := [] } samplePppHeader).data ++ [7],
          position := 0, isReadBeyondEnd := false }
      = (samplePppHeader,
         { data := (PppHeaderSerializer.serialize { data := [] } samplePppHeader).data ++ [7],
           position := 5, isReadBeyondEnd := false })
    ∧ (PppTrailerSerializer.serialize { data := [] } samplePppTrailer).data = [190, 239]
    ∧ PppTrailerSerializer.deserialize
        { data := (PppTrailerSerializer.serialize { data := [] } samplePppTrailer).data ++ [7],
          position := 0, isReadBeyondEnd := false }
      = (samplePppTrailer,
         { data := (PppTrailerSerializer.serialize { data := [] } samplePppTrailer).data ++ [7],
           position := 2, isReadBeyondEnd := false }) :=
  ⟨by decide,
   (ppp_serializers_roundtrip samplePppHeader samplePppTrailer [7] (by decide) (by decide)
      (by decide) (by decide) (by decide)).2.2.1,
   by decide,
   (ppp_serializers_roundtrip samplePppHeader samplePppTrailer [7] (by decide) (by decide)
      (by decide) (by decide) (by decide)).2.2.2.2.2⟩

end INET
